import Mathlib

/-!
Shallow embedding of the Invest Europe / Reframe Venture metric validator
(`Invest Europe Reframe Venture Validator.py`).

The validator processes one entity's dataset (a `metric_id -> raw string value`
map and a `metric_id -> status string` map) against an injected schema and
static metric-tier configuration, classifies every metric of the metric
universe into outcome buckets, applies the hardcoded `special_relations`
rule list, and aggregates a summary.

Modelling conventions:
* Python dicts are association lists (`List (String × String)` etc.); `dget?`
  is `dict.get(k)`, `dgetD` is `dict.get(k, default)`.
* Python numbers produced by `get_typed_value` are `PyVal`: `int` is modelled
  by `Int`, `float` by `Rat` (exact arithmetic stands in for IEEE floats).
* Python exceptions that the validator can actually raise are modelled by
  `Except PyErr`: `KeyError` from `company_metrics["..."]` on an absent key,
  `TypeError` from comparing a `str` with an `int` (`total_fte_number >= 15`),
  `UnboundLocalError` from reading the local `level` before any branch has
  assigned it, and `ZeroDivisionError` from `len(required) == 0`.
* The external `cerberus.Validator` and the label/unit interpreters
  (`get_interpreted_value_*`, which only read injected OPTIONS/UNITS tables)
  are abstract parameters of the configuration: the validator only observes
  a boolean verdict, an error string and an interpreted string from them.
* Strings are modelled at two levels of the character set. The pipeline
  definitions use the decimal fragment: `isNumeric` is `str.isnumeric` on
  strings without numeric-but-non-decimal characters, and `pyFloat?` models
  `float(...)` on plain decimal literals (sign, digits, optional fraction
  and exponent; whitespace-padded, underscored and inf/nan forms are outside
  this fragment — the last two are not values of the rational model at all).
  Python's `str.isnumeric` also accepts numeric-but-non-decimal characters
  (vulgar fractions, superscripts) on which `int(value)` raises
  `ValueError`; `pyIsnumeric`, `pyInt?` and `get_typed_value_unicode` model
  the source over a character set extended with such characters, and
  `get_typed_value_unicode_agrees` proves the two levels agree on strings
  without them.
-/

namespace ReframeVenture

/-- Python dict lookup `d.get(k)` over an association list (first match). -/
def dget? {α : Type} (m : List (String × α)) (k : String) : Option α :=
  (m.find? (fun p => p.1 == k)).map (fun p => p.2)

/-- Python dict lookup with default, `d.get(k, default)`. -/
def dgetD {α : Type} (m : List (String × α)) (k : String) (d : α) : α :=
  (dget? m k).getD d

/-- Python truthiness of `d.get(k)` for a string-valued dict: `None` and the
empty string are falsy. -/
def pyTruthy (o : Option String) : Bool :=
  match o with
  | none => false
  | some s => s ≠ ""

/-- Values produced by `get_typed_value`: a Python `int`, `float` (modelled as
a rational) or `str`. -/
inductive PyVal where
  | int (n : Int)
  | float (q : Rat)
  | str (s : String)
deriving DecidableEq, Repr

/-- The numeric content of a `PyVal`, mirroring
`isinstance(value, (int, float))` plus the value itself. -/
def pyNum? : PyVal → Option Rat
  | .int n => some (n : Rat)
  | .float q => some q
  | .str _ => none

/-- Python exceptions reachable in the validator. -/
inductive PyErr where
  | keyError (k : String)
  | typeError
  | valueError
  | unboundLocal
  | zeroDivision
deriving DecidableEq, Repr

/-- One schema entry. Only the `type` field is read by the embedded code
itself (`get_typed_value`); the remaining cerberus keys (allowed/min/max) are
consumed by the external `cerberus.Validator`, which is modelled as an
abstract boolean function of the entry and the typed value. -/
structure SchemaEntry where
  type : Option String := none
deriving DecidableEq, Repr

/-- A metric schema: `compound_id -> entry`. -/
def Schema : Type := List (String × SchemaEntry)

/-- The empty dict default of `schema.get(compound_id, {})`. -/
def emptyEntry : SchemaEntry := { type := none }

/-- The declared type of a metric: `schema.get(compound_id, {}).get("type")`. -/
def schemaType (schema : Schema) (compound_id : String) : Option String :=
  match dget? schema compound_id with
  | some e => e.type
  | none => none

/-- Model of `str.isnumeric` for ASCII text: non-empty and all digits. -/
def isNumeric (s : String) : Bool :=
  !s.isEmpty && s.toList.all Char.isDigit

/-- The natural number denoted by a digit string. -/
def digitsToNat (l : List Char) : Nat :=
  l.foldl (fun a c => 10 * a + (c.toNat - 48)) 0

/-- Split leading digits from a character list. -/
def spanDigits (l : List Char) : List Char × List Char :=
  (l.takeWhile Char.isDigit, l.dropWhile Char.isDigit)

/-- Model of Python `float(s)` on ordinary decimal literals: optional sign,
digits with an optional fraction part, optional exponent. Returns `none`
where `float` raises `ValueError`. -/
def pyFloat? (s : String) : Option Rat :=
  let cs := s.toList
  let signAndRest : Bool × List Char :=
    match cs with
    | '-' :: t => (true, t)
    | '+' :: t => (false, t)
    | t => (false, t)
  let neg := signAndRest.1
  let body := signAndRest.2
  let ip := spanDigits body
  let afterInt := ip.2
  let fp : List Char × List Char :=
    match afterInt with
    | '.' :: t => spanDigits t
    | t => ([], t)
  if ip.1.isEmpty && fp.1.isEmpty then
    none
  else
    let mantissa : Rat :=
      (digitsToNat ip.1 : Rat) + (digitsToNat fp.1 : Rat) / ((10 : Rat) ^ fp.1.length)
    let rest := fp.2
    let withExp : Option Rat :=
      match rest with
      | [] => some mantissa
      | 'e' :: t =>
        match t with
        | '-' :: d => if d ≠ [] ∧ d.all Char.isDigit then some (mantissa / (10 : Rat) ^ digitsToNat d) else none
        | '+' :: d => if d ≠ [] ∧ d.all Char.isDigit then some (mantissa * (10 : Rat) ^ digitsToNat d) else none
        | d => if d ≠ [] ∧ d.all Char.isDigit then some (mantissa * (10 : Rat) ^ digitsToNat d) else none
      | 'E' :: t =>
        match t with
        | '-' :: d => if d ≠ [] ∧ d.all Char.isDigit then some (mantissa / (10 : Rat) ^ digitsToNat d) else none
        | '+' :: d => if d ≠ [] ∧ d.all Char.isDigit then some (mantissa * (10 : Rat) ^ digitsToNat d) else none
        | d => if d ≠ [] ∧ d.all Char.isDigit then some (mantissa * (10 : Rat) ^ digitsToNat d) else none
      | _ => none
    withExp.map (fun q => if neg then -q else q)

/-- Source `is_float(value)`: whether `float(value)` succeeds. -/
def is_float (value : String) : Bool :=
  (pyFloat? value).isSome

/-- Source `get_typed_value(schema, value, compound_id)`: integer parse only
when the declared type is integer and the string is a non-negative numeral;
float parse only when the declared type is float and the string parses as a
float; otherwise the string passes through unchanged. -/
def get_typed_value (schema : Schema) (value : String) (compound_id : String) : PyVal :=
  if schemaType schema compound_id = some "integer" ∧ isNumeric value then
    .int (digitsToNat value.toList : Nat)
  else if schemaType schema compound_id = some "float" ∧ is_float value then
    .float ((pyFloat? value).getD 0)
  else
    .str value

/-- Numeric-but-non-decimal characters of the extended character model:
characters Python's `str.isnumeric` accepts although `int(...)` rejects them
(`"½".isnumeric()` is True while `int("½")` raises `ValueError`). A finite
subset of Unicode's non-decimal numerics — the vulgar fractions and
superscript digits — stands in for the whole class. -/
def pyNonDecimalNumericChars : List Char := ['½', '¼', '¾', '¹', '²', '³']

/-- Per-character test of Python `str.isnumeric` over the extended character
model: the ASCII decimal digits plus the modelled non-decimal numerics. -/
def pyNumericChar (c : Char) : Bool :=
  c.isDigit || decide (c ∈ pyNonDecimalNumericChars)

/-- Python `str.isnumeric` over the extended character model: non-empty and
every character numeric. -/
def pyIsnumeric (s : String) : Bool :=
  !s.isEmpty && s.toList.all pyNumericChar

/-- Python `int(value)` at `get_typed_value`'s call site, over the extended
character model: the guard guarantees a non-empty all-numeric string with no
sign, whitespace or underscore, and on such strings `int` succeeds exactly
when every character is a decimal digit, raising `ValueError` otherwise. -/
def pyInt? (s : String) : Option Int :=
  if !s.isEmpty && s.toList.all Char.isDigit then some (Int.ofNat (digitsToNat s.toList))
  else none

/-- Source `get_typed_value` over the extended character model: the
`value.isnumeric()` guard also passes numeric-but-non-decimal strings, on
which the unguarded `int(value)` raises `ValueError` instead of degrading to
a string. On strings without such characters this agrees with the total
`get_typed_value` (`get_typed_value_unicode_agrees`). -/
def get_typed_value_unicode (schema : Schema) (value : String) (compound_id : String) :
    Except PyErr PyVal :=
  if schemaType schema compound_id = some "integer" ∧ pyIsnumeric value then
    match pyInt? value with
    | some n => .ok (.int n)
    | none => .error .valueError
  else if schemaType schema compound_id = some "float" ∧ is_float value then
    .ok (.float ((pyFloat? value).getD 0))
  else
    .ok (.str value)

/-- C9 schema: one metric of declared type integer. -/
def c9IntSchema : Schema := [("m", SchemaEntry.mk (some "integer"))]

/-- C9 schema: one metric of declared type float. -/
def c9FloatSchema : Schema := [("m", SchemaEntry.mk (some "float"))]

/-- Python `value >= n` for a typed value against an int literal: a `str`
operand raises `TypeError`. -/
def pyGeNat (v : PyVal) (n : Nat) : Except PyErr Bool :=
  match v with
  | .int m => .ok (decide ((n : Int) ≤ m))
  | .float q => .ok (decide ((n : Rat) ≤ q))
  | .str _ => .error .typeError

/-- Python `round` half-to-even on an exact rational. -/
def pyRoundHalfEven (q : Rat) : Int :=
  let f : Int := q.floor
  let r : Rat := q - (f : Rat)
  if r < 1 / 2 then f
  else if 1 / 2 < r then f + 1
  else if f % 2 = 0 then f else f + 1

/-- Python `round(q, 2)` over the rational model. -/
def round2 (q : Rat) : Rat :=
  (pyRoundHalfEven (q * 100) : Rat) / 100

/-- A dataset for one reporting entity, as built by `read_and_organize_csv`:
`metrics` maps compound ids to raw string values, `status` to status strings. -/
structure EntityData where
  metrics : List (String × String)
  status : List (String × String)
deriving DecidableEq, Repr

/-- A `requirement_level` value on a valid-line record: normally a Python
`str`; the conditional-requirement annotation writes a one-element tuple
(the source line ends in a trailing comma), recorded by `tup`. -/
inductive ReqLevel where
  | str (s : String)
  | tup (s : String)
deriving DecidableEq, Repr

/-- A record of `valid_lines` for a company report. -/
structure ValidLine where
  compound_id : String
  raw_value : PyVal
  interpreted_value : String
  requirement_level : ReqLevel
deriving DecidableEq, Repr

/-- A record of `error_lines`: `requirement_level` is present on some error
records (schema failure, unknown status) and absent on others (blank value,
conflict). -/
structure ErrorLine where
  compound_id : String
  raw_value : String
  error_notes : String
  requirement_level : Option String
deriving DecidableEq, Repr

/-- A record of `blank_lines`, `recommended_but_missing_lines` or
`missing_metrics`. -/
structure LevelLine where
  compound_id : String
  requirement_level : String
  reason : String
deriving DecidableEq, Repr

/-- A record of `warning_lines` produced by a sum check. -/
structure WarningLine where
  compound_id : String
  raw_value : String
  warning_notes : String
deriving DecidableEq, Repr

/-- A record of `unknown_lines` (compound id not in the schema). -/
structure UnknownLine where
  compound_id : String
  raw_value : String
  error_notes : String
deriving DecidableEq, Repr

/-- The injected configuration of the company pipeline: the static metric
tier lists and schema tables (loaded from `validation_mappings`, injected
data per the spec), and the external collaborators — the cerberus validator
(`Validator({cid: entry}).validate({cid: typed})` and `str(validator.errors)`)
and `get_interpreted_value_portco_with_units(value, cid, currency)`. -/
structure PortcoConfig where
  MINIMUM_METRICS : List String
  INTERMEDIATE_METRICS : List String
  FULL_METRICS : List String
  OPTIONAL_METRICS : List String
  ALL_METRICS : List String
  SCHEMA_PORTCO : Schema
  cerberusValid : SchemaEntry → PyVal → Bool
  cerberusErrors : SchemaEntry → PyVal → String
  interpret : String → String → String → String

/-- The requirement-level cascade used by `validate_metrics_by_company`
(membership in MINIMUM, then INTERMEDIATE, then FULL, else a fallback
label). -/
def companyLevel (g : PortcoConfig) (compound_id : String) (fallback : String) : String :=
  if compound_id ∈ g.MINIMUM_METRICS then "Minimum"
  else if compound_id ∈ g.INTERMEDIATE_METRICS then "Intermediate"
  else if compound_id ∈ g.FULL_METRICS then "Full"
  else fallback

/-- The reason string for a not_applicable / not_available status. -/
def naReason (status : String) : String :=
  if status = "not_applicable" then "Marked as not applicable in import file"
  else "Marked as not available in import file"

/-- The single bucket append performed by one iteration of the company
classification loop (`skip` when no branch appends anything). -/
inductive BucketAdd where
  | toValid (r : ValidLine)
  | toError (r : ErrorLine)
  | toBlank (r : LevelLine)
  | toRecommended (r : LevelLine)
  | toMissing (r : LevelLine)
  | skip
deriving DecidableEq, Repr

/-- Escalation reason for a minimum-tier metric marked not_applicable /
not_available. -/
def minTierReason : String :=
  "Status is 'not_applicable' or 'not_available', but this is a 'minimum' metric."

/-- Escalation reason for an intermediate-tier metric when the FTE count
reaches 15. -/
def intTierReason : String :=
  "Status is 'not_applicable' or 'not_available', but this is an 'intermediate' metric for companies with FTE higher than 15."

/-- Escalation reason for a full-tier metric when the FTE count reaches
250. -/
def fullTierReason : String :=
  "Status is 'not_applicable' or 'not_available', but all metrics are strongly recommended for companies with FTE higher than 250."

/-- Escalation reason when the FTE value is empty, so the requirement level
cannot be decided. -/
def unknownFteReason : String :=
  "Status is 'not_applicable' or 'not_available'. Unknown level of requirement for this company since total_ftes_end_of_report_year is not provided."

/-- One iteration of the company classification loop, for one metric of
`ALL_METRICS`. `level0` carries the current value of the Python local
`level` (assigned by earlier iterations; reading it unassigned raises
`UnboundLocalError`). Returns the bucket append and the local's new value. -/
def classify_company_metric (g : PortcoConfig) (schema : Schema)
    (metrics statuses : List (String × String)) (level0 : Option String)
    (compound_id : String) : Except PyErr (BucketAdd × Option String) :=
  match dget? metrics compound_id with
  | none =>
    let level := companyLevel g compound_id "Value not required (optional)"
    .ok (.toMissing ⟨compound_id, level, "Not in import file at all"⟩, some level)
  | some raw_value =>
    let status := dgetD statuses compound_id ""
    if status = "not_applicable" ∨ status = "not_available" then
      let reason := naReason status
      let level := companyLevel g compound_id "Value not required"
      match dget? metrics "total_ftes_end_of_report_year" with
      | none => .error (.keyError "total_ftes_end_of_report_year")
      | some raw_fte_value =>
        if raw_fte_value ≠ "" then
          let total_fte_number :=
            get_typed_value g.SCHEMA_PORTCO raw_fte_value "total_ftes_end_of_report_year"
          if level = "Minimum" then
            .ok (.toRecommended ⟨compound_id, level, minTierReason⟩, some level)
          else if level = "Intermediate" then do
            let b ← pyGeNat total_fte_number 15
            if b then
              .ok (.toRecommended ⟨compound_id, level, intTierReason⟩, some level)
            else
              .ok (.toBlank ⟨compound_id, level, reason⟩, some level)
          else if level = "Full" then do
            let b ← pyGeNat total_fte_number 250
            if b then
              .ok (.toRecommended ⟨compound_id, level, fullTierReason⟩, some level)
            else
              .ok (.toBlank ⟨compound_id, level, reason⟩, some level)
          else
            .ok (.skip, some level)
        else
          if level = "Minimum" then
            .ok (.toRecommended ⟨compound_id, level, minTierReason⟩, some level)
          else
            .ok (.toRecommended ⟨compound_id, level, unknownFteReason⟩, some level)
    else if raw_value = "" ∧ status = "provided" then
      .ok (.toError ⟨compound_id, raw_value, "Value is blank but marked as 'provided'.", none⟩, level0)
    else if status = "provided" then
      let typed_value := get_typed_value g.SCHEMA_PORTCO raw_value compound_id
      match dget? metrics "currency" with
      | none => .error (.keyError "currency")
      | some currency =>
        let interpreted_value := g.interpret raw_value compound_id currency
        let level := companyLevel g compound_id "Value not required"
        if g.cerberusValid (dgetD schema compound_id emptyEntry) typed_value then
          .ok (.toValid ⟨compound_id, typed_value, interpreted_value, .str level⟩, some level)
        else
          .ok (.toError ⟨compound_id, raw_value,
                g.cerberusErrors (dgetD schema compound_id emptyEntry) typed_value, some level⟩,
               some level)
    else
      match level0 with
      | none => .error .unboundLocal
      | some level =>
        .ok (.toError ⟨compound_id, raw_value,
              "Unknown value in 'STATUS' column: " ++ status ++ ".", some level⟩, level0)

/-- The mutable result buckets of the company pipeline. -/
structure CompanyBuckets where
  valid_lines : List ValidLine
  error_lines : List ErrorLine
  blank_lines : List LevelLine
  recommended_but_missing_lines : List LevelLine
  missing_metrics : List LevelLine
  warning_lines : List WarningLine
deriving DecidableEq, Repr

/-- Apply one classification append to the buckets. -/
def applyAdd (b : CompanyBuckets) : BucketAdd → CompanyBuckets
  | .toValid r => { b with valid_lines := b.valid_lines ++ [r] }
  | .toError r => { b with error_lines := b.error_lines ++ [r] }
  | .toBlank r => { b with blank_lines := b.blank_lines ++ [r] }
  | .toRecommended r =>
      { b with recommended_but_missing_lines := b.recommended_but_missing_lines ++ [r] }
  | .toMissing r => { b with missing_metrics := b.missing_metrics ++ [r] }
  | .skip => b

/-- The classification loop of `validate_metrics_by_company` over a list of
compound ids, threading the buckets and the Python local `level`. -/
def classify_company_go (g : PortcoConfig) (schema : Schema)
    (metrics statuses : List (String × String)) :
    List String → CompanyBuckets → Option String → Except PyErr CompanyBuckets
  | [], b, _ => .ok b
  | compound_id :: rest, b, lv => do
    let r ← classify_company_metric g schema metrics statuses lv compound_id
    classify_company_go g schema metrics statuses rest (applyAdd b r.1) r.2

/-- The full classification pass over `ALL_METRICS`, starting from empty
buckets and an unassigned `level`. -/
def classify_company (g : PortcoConfig) (schema : Schema)
    (metrics statuses : List (String × String)) : Except PyErr CompanyBuckets :=
  classify_company_go g schema metrics statuses g.ALL_METRICS ⟨[], [], [], [], [], []⟩ none

/-- One special relation. The source distinguishes the four shapes by key
presence (`condition_ids`, `conflict_trigger`, `sum_check`, else
conditional); the dictionaries are disjoint, so a tagged variant is a
faithful model. -/
inductive Relation where
  | conditional (condition_id condition_value : String) (dependent_ids : List String)
  | subsetTotal (condition_ids : List String) (total_field : String)
  | conflict (conflict_trigger conflict_trigger_value : String) (conflicting_fields : List String)
  | sumCheck (total_field : String) (component_fields : List String) (tolerance_percent : Option Rat)
deriving DecidableEq, Repr

/-- Drop every record of a level-record bucket carrying the given compound
id (the list-comprehension filter of the source). -/
def dropLevel (l : List LevelLine) (compound_id : String) : List LevelLine :=
  l.filter (fun x => x.compound_id ≠ compound_id)

/-- Drop every valid-line record carrying the given compound id. -/
def dropValid (l : List ValidLine) (compound_id : String) : List ValidLine :=
  l.filter (fun x => x.compound_id ≠ compound_id)

/-- In-place mutation of the first valid-line record with the given
compound id (`next(...)` then `obj["requirement_level"] = (..., )`): its
requirement level becomes the one-element tuple. -/
def annotateFirst : List ValidLine → String → ReqLevel → List ValidLine
  | [], _, _ => []
  | x :: xs, compound_id, lv =>
    if x.compound_id = compound_id then { x with requirement_level := lv } :: xs
    else x :: annotateFirst xs compound_id lv

/-- State threaded through the company relation loop: the buckets plus the
mutable copies `minimum`, `intermediate`, `full` of the tier lists. -/
structure CompanyRelState where
  buckets : CompanyBuckets
  minimum : List String
  intermediate : List String
  full : List String
deriving DecidableEq, Repr

/-- The requirement-level annotation of a subset-total replacement record. -/
def subsetTotalLevel (condition_ids : List String) : String :=
  "Strongly recommended because at least one value is provided for " ++
    String.intercalate ", " condition_ids

/-- The requirement-level annotation of a conditional-requirement
replacement record. -/
def conditionalLevel (condition_id condition_value : String) : String :=
  "Strongly recommended because '" ++ condition_id ++ "' is '" ++ condition_value ++ "'"

/-- The subset-total branch of the company relation loop (`"condition_ids"
in relation`): when any condition field has a truthy value, the total field
is re-filed with a detailed record. -/
def company_subset_total_step (metrics statuses : List (String × String))
    (condition_ids : List String) (total_field : String)
    (st : CompanyRelState) : CompanyRelState :=
  if condition_ids.any (fun condition_id => pyTruthy (dget? metrics condition_id)) then
    let total_status := dgetD statuses total_field ""
    let lvl := subsetTotalLevel condition_ids
    match dget? metrics total_field with
    | none =>
      { st with buckets := { st.buckets with
          missing_metrics :=
            dropLevel st.buckets.missing_metrics total_field ++
              [⟨total_field, lvl, "Not in import file at all"⟩],
          blank_lines := dropLevel st.buckets.blank_lines total_field } }
    | some v =>
      if v = "" ∧ ¬(total_status = "not_applicable" ∨ total_status = "not_available") then
        { st with buckets := { st.buckets with
            missing_metrics :=
              dropLevel st.buckets.missing_metrics total_field ++
                [⟨total_field, lvl, "Value is blank"⟩],
            valid_lines := dropValid st.buckets.valid_lines total_field,
            blank_lines := dropLevel st.buckets.blank_lines total_field } }
      else if total_status = "not_applicable" ∨ total_status = "not_available" then
        { st with buckets := { st.buckets with
            recommended_but_missing_lines :=
              dropLevel st.buckets.recommended_but_missing_lines total_field ++
                [⟨total_field, lvl, "Marked as not_applicable or not_available"⟩],
            blank_lines := dropLevel st.buckets.blank_lines total_field } }
      else st
  else st

/-- The error note of a conflict record. -/
def conflictMsg (conflicting_field trigger_field trigger_value : String) : String :=
  "Conflict: '" ++ conflicting_field ++ "' is 'yes' but '" ++ trigger_field ++
    "' is also '" ++ trigger_value ++ "'. If '" ++ trigger_field ++ "' is '" ++
    trigger_value ++ "', then '" ++ conflicting_field ++ "' should be 'no'."

/-- Processing of one conflicting field once the conflict trigger fired: a
field answered "yes" is forced out of valid/blank into error. -/
def company_conflict_field_step (metrics : List (String × String))
    (trigger_field trigger_value : String) (b : CompanyBuckets)
    (conflicting_field : String) : CompanyBuckets :=
  if dget? metrics conflicting_field = some "yes" then
    { b with
        valid_lines := dropValid b.valid_lines conflicting_field,
        blank_lines := dropLevel b.blank_lines conflicting_field,
        error_lines := b.error_lines ++
          [⟨conflicting_field, "yes",
            conflictMsg conflicting_field trigger_field trigger_value, none⟩] }
  else b

/-- The conflict branch of the company relation loop (`"conflict_trigger" in
relation`). -/
def company_conflict_step (metrics : List (String × String))
    (trigger_field trigger_value : String) (conflicting_fields : List String)
    (st : CompanyRelState) : CompanyRelState :=
  if dget? metrics trigger_field = some trigger_value then
    let b := conflicting_fields.foldl
      (company_conflict_field_step metrics trigger_field trigger_value) st.buckets
    { st with buckets := b }
  else st

/-- The component scan of a sum check: the fields found with a numeric value
and their running sum (`components_found`, `component_sum`). -/
def componentsFoundSum (schema : Schema) (metrics : List (String × String))
    (component_fields : List String) : List String × Rat :=
  component_fields.foldl
    (fun acc comp_field =>
      let comp_raw := dgetD metrics comp_field ""
      if comp_raw ≠ "" then
        match pyNum? (get_typed_value schema comp_raw comp_field) with
        | some q => (acc.1 ++ [comp_field], acc.2 + q)
        | none => acc
      else acc)
    ([], 0)

/-- The warning note of a sum-check mismatch. Numeric rendering uses the
rational's `toString` in place of Python's float/int formatting. -/
def sumMismatchMsg (total_field : String) (total_value : Rat)
    (components_found : List String) (component_sum : Rat) (tol : Rat) : String :=
  "Sum mismatch: '" ++ total_field ++ "' is " ++ toString total_value ++
    ", but sum of [" ++ String.intercalate ", " components_found ++ "] is " ++
    toString component_sum ++ ". Difference exceeds " ++ toString tol ++ "% tolerance."

/-- The sum-check branch of the company relation loop (`"sum_check" in
relation`): fires only on a numeric total, skips when no component carries a
numeric value, and compares the absolute difference against the tolerance. -/
def sum_check_step (schema : Schema) (metrics : List (String × String))
    (total_field : String) (component_fields : List String)
    (tolerance_percent : Option Rat) (warning_lines : List WarningLine) :
    List WarningLine :=
  let tol := tolerance_percent.getD 1
  let total_raw := dgetD metrics total_field ""
  if total_raw ≠ "" then
    match pyNum? (get_typed_value schema total_raw total_field) with
    | some total_value =>
      let cs := componentsFoundSum schema metrics component_fields
      if cs.1 ≠ [] then
        let is_mismatch :=
          if total_value = 0 then cs.2 ≠ 0
          else |total_value - cs.2| > |total_value| * (tol / 100)
        if is_mismatch then
          warning_lines ++
            [⟨total_field, total_raw, sumMismatchMsg total_field total_value cs.1 cs.2 tol⟩]
        else warning_lines
      else warning_lines
    | none => warning_lines
  else warning_lines

/-- Re-filing of one dependent id once a conditional-requirement condition
fired: move the dependent to the detailed missing / recommended record, or
annotate its valid record. -/
def company_conditional_dep_refile (metrics statuses : List (String × String))
    (condition_id condition_value : String) (st : CompanyRelState)
    (dependent_id : String) : CompanyRelState :=
  let lvl := conditionalLevel condition_id condition_value
  match dget? metrics dependent_id with
    | none =>
      { st with buckets := { st.buckets with
          missing_metrics :=
            dropLevel st.buckets.missing_metrics dependent_id ++
              [⟨dependent_id, lvl, "Not in import file at all"⟩],
          blank_lines := dropLevel st.buckets.blank_lines dependent_id } }
    | some v =>
      let depStatus := dgetD statuses dependent_id ""
      if v = "" ∧ ¬(depStatus = "not_applicable" ∨ depStatus = "not_available") then
        { st with buckets := { st.buckets with
            missing_metrics :=
              dropLevel st.buckets.missing_metrics dependent_id ++
                [⟨dependent_id, lvl, "Value is blank"⟩],
            valid_lines := dropValid st.buckets.valid_lines dependent_id,
            blank_lines := dropLevel st.buckets.blank_lines dependent_id } }
      else if depStatus = "not_applicable" ∨ depStatus = "not_available" then
        { st with buckets := { st.buckets with
            recommended_but_missing_lines :=
              dropLevel st.buckets.recommended_but_missing_lines dependent_id ++
                [⟨dependent_id, lvl, "Marked as not_applicable or not_available"⟩],
            blank_lines := dropLevel st.buckets.blank_lines dependent_id } }
      else
        { st with buckets := { st.buckets with
            valid_lines := annotateFirst st.buckets.valid_lines dependent_id (.tup lvl) } }

/-- After the dependent branches, whichever mutable tier lists contain the
condition id get the dependent appended. -/
def company_conditional_tier_extend (condition_id : String) (st : CompanyRelState)
    (dependent_id : String) : CompanyRelState :=
  let st2 :=
    if condition_id ∈ st.minimum then { st with minimum := st.minimum ++ [dependent_id] }
    else st
  let st3 :=
    if condition_id ∈ st2.intermediate then
      { st2 with intermediate := st2.intermediate ++ [dependent_id] }
    else st2
  if condition_id ∈ st3.full then { st3 with full := st3.full ++ [dependent_id] } else st3

/-- Processing of one dependent id once a conditional-requirement condition
fired: the re-filing branch chain, then the tier-list extension. -/
def company_conditional_dep_step (metrics statuses : List (String × String))
    (condition_id condition_value : String) (st : CompanyRelState)
    (dependent_id : String) : CompanyRelState :=
  company_conditional_tier_extend condition_id
    (company_conditional_dep_refile metrics statuses condition_id condition_value st
      dependent_id) dependent_id

/-- The conditional-requirement branch of the company relation loop. -/
def company_conditional_step (metrics statuses : List (String × String))
    (condition_id condition_value : String) (dependent_ids : List String)
    (st : CompanyRelState) : CompanyRelState :=
  if dget? metrics condition_id = some condition_value then
    dependent_ids.foldl
      (company_conditional_dep_step metrics statuses condition_id condition_value) st
  else st

/-- One iteration of the company relation loop, dispatching on the relation
kind. -/
def company_relation_step (schema : Schema) (metrics statuses : List (String × String))
    (st : CompanyRelState) : Relation → CompanyRelState
  | .conditional condition_id condition_value dependent_ids =>
    company_conditional_step metrics statuses condition_id condition_value dependent_ids st
  | .subsetTotal condition_ids total_field =>
    company_subset_total_step metrics statuses condition_ids total_field st
  | .conflict trigger_field trigger_value conflicting_fields =>
    company_conflict_step metrics trigger_field trigger_value conflicting_fields st
  | .sumCheck total_field component_fields tolerance_percent =>
    { st with buckets := { st.buckets with
        warning_lines :=
          sum_check_step schema metrics total_field component_fields tolerance_percent
            st.buckets.warning_lines } }

/-- The company relation loop over a relation list. -/
def company_relations_fold (schema : Schema) (metrics statuses : List (String × String))
    (st : CompanyRelState) (rels : List Relation) : CompanyRelState :=
  rels.foldl (company_relation_step schema metrics statuses) st

/-- The hardcoded `special_relations` list of `validate_metrics_by_company`
(2025 revision), in declaration order: conditional requirements, subset-total
checks, conflicts, sum checks. -/
def company_special_relations : List Relation := [
  .conditional "violating_ungp_oecd" "yes" ["type_of_violations_ungc_oecd_guidelines"],
  .conditional "cyber_other" "yes" ["cyber_other_specify"],
  .conditional "number_of_data_breaches" "yes" ["data_breaches_qualitative"],
  .conditional "number_of_esg_incidents" "yes" ["qualitative_info_esg_incidents"],
  .conditional "number_of_workrelated_injuries" "yes" ["workrelated_injuries_qualitative"],
  .conditional "eu_taxonomy_assessment" "yes"
    ["percentage_turnover_eu_taxonomy", "percentage_capex_eu_taxonomy",
     "percentage_opex_eu_taxonomy"],
  .conditional "tobacco_activities" "yes" ["percentage_turnover_tobacco_activities"],
  .conditional "hard_coal_and_lignite_activities" "yes"
    ["percentage_turnover_hard_coal_and_lignite_activities"],
  .conditional "oil_fuels_activities" "yes" ["percentage_turnover_oil_fuels_activities"],
  .conditional "gaseous_fuels_activities" "yes"
    ["percentage_turnover_gaseous_fuels_activities"],
  .conditional "high_ghg_intensity_electricity_generation" "yes"
    ["percentage_turnover_high_ghg_intensity_electricity_generation"],
  .conditional "listed" "yes" ["listed_ticker"],
  .subsetTotal
    ["number_of_ftes_end_of_report_year_female",
     "number_of_ftes_end_of_report_year_non_binary",
     "number_of_ftes_end_of_report_year_non_disclosed",
     "number_of_ftes_end_of_report_year_male"]
    "total_ftes_end_of_report_year",
  .subsetTotal
    ["number_of_csuite_female", "number_of_csuite_non_binary",
     "number_of_csuite_non_disclosed", "number_of_csuite_male"]
    "total_csuite_employees",
  .subsetTotal
    ["number_of_founders_still_employed_female",
     "number_of_founders_still_employed_non_binary",
     "number_of_founders_still_employed_non_disclosed",
     "number_of_founders_still_employed_male"]
    "total_founders_still_employed",
  .subsetTotal
    ["number_of_board_members_female", "number_of_board_members_non_binary",
     "number_of_board_members_non_disclosed", "number_of_board_members_male",
     "number_of_board_members_underrepresented_groups",
     "number_of_independent_board_members"]
    "total_number_of_board_members",
  .subsetTotal ["energy_consumption_renewable"] "total_energy_consumption",
  .conflict "sustainability_responsibility_none" "yes"
    ["sustainability_responsibility_officer", "sustainability_responsibility_team",
     "sustainability_responsibility_referent", "sustainability_responsibility_cfo",
     "sustainability_responsibility_ceo", "sustainability_responsibility_cso",
     "sustainability_responsibility_management"],
  .conflict "cyber_no_programme" "yes"
    ["cyber_scheduled_scans", "cyber_penetration_testing",
     "cyber_lifecycle_security_testing", "cyber_other"],
  .sumCheck "gross_revenue" ["gross_revenue_inside_eu", "gross_revenue_outside_eu"] (some 1),
  .sumCheck "turnover" ["turnover_inside_eu", "turnover_outside_eu"] (some 1),
  .sumCheck "total_ghg_emissions"
    ["total_scope_1_emissions", "total_scope_2_emissions", "total_scope_3_emissions"]
    (some 5),
  .sumCheck "total_energy_consumption"
    ["energy_consumption_renewable", "non_renewable_energy_consumption"] (some 5),
  .sumCheck "total_ftes_end_of_report_year"
    ["number_of_ftes_end_of_report_year_female", "number_of_ftes_end_of_report_year_male",
     "number_of_ftes_end_of_report_year_non_binary",
     "number_of_ftes_end_of_report_year_non_disclosed"]
    (some 5),
  .sumCheck "total_csuite_employees"
    ["number_of_csuite_female", "number_of_csuite_male", "number_of_csuite_non_binary",
     "number_of_csuite_non_disclosed"]
    (some 5),
  .sumCheck "total_founders_still_employed"
    ["number_of_founders_still_employed_female", "number_of_founders_still_employed_male",
     "number_of_founders_still_employed_non_binary",
     "number_of_founders_still_employed_non_disclosed"]
    (some 5),
  .sumCheck "total_number_of_board_members"
    ["number_of_board_members_female", "number_of_board_members_male",
     "number_of_board_members_non_binary", "number_of_board_members_non_disclosed"]
    (some 5)]

/-- The final summary of `validate_metrics_by_company`. -/
structure CompanySummary where
  company_name : String
  valid_lines : Nat
  invalid_lines : Nat
  percent_min : Rat
  percent_rec : Rat
  percent_full : Rat
  missing_minimum : Nat
  missing_intermediate : Nat
  missing_full : Nat
  correct_lines : List ValidLine
  error_lines : List ErrorLine
  unknown_lines : List UnknownLine
  missing_metrics : List LevelLine
  blank_lines : List LevelLine
  recommended_but_missing_lines : List LevelLine
  warning_lines : List WarningLine
deriving DecidableEq, Repr

/-- The per-tier completion percentage of the company report:
`round(met / total * 100, 2)`, `0` for an empty tier list; `met` counts the
tier's metrics outside the missing-or-error id set. -/
def tierPercentage (tier : List String) (all_missing_ids : List String) : Rat :=
  let total := tier.length
  let met := (tier.filter (fun m => m ∉ all_missing_ids)).length
  if total > 0 then round2 ((met : Rat) / (total : Rat) * 100) else 0

/-- The aggregation step of `validate_metrics_by_company`: unknown-id scan,
percentages over the static tier lists, hierarchy-aware missing counts over
the mutated tier lists, and the summary record. -/
def company_aggregate (g : PortcoConfig) (schema : Schema)
    (metrics : List (String × String)) (st : CompanyRelState) : CompanySummary :=
  let unknown_lines : List UnknownLine :=
    metrics.filterMap (fun p =>
      if (dget? schema p.1).isSome then none
      else some ⟨p.1, dgetD metrics p.1 "", "Unknown compound ID"⟩)
  let all_missing_ids : List String :=
    st.buckets.missing_metrics.map (fun d => d.compound_id) ++
      st.buckets.error_lines.map (fun e => e.compound_id)
  let missing_minimum :=
    (st.buckets.missing_metrics.filter (fun m => m.requirement_level = "minimum")).length +
      (st.buckets.error_lines.filter (fun e => e.compound_id ∈ st.minimum)).length
  let missing_intermediate :=
    (st.buckets.missing_metrics.filter (fun m =>
        m.requirement_level = "minimum" ∨ m.requirement_level = "intermediate")).length +
      (st.buckets.error_lines.filter (fun e => e.compound_id ∈ st.intermediate)).length
  let missing_full :=
    (st.buckets.missing_metrics.filter (fun m =>
        m.requirement_level = "minimum" ∨ m.requirement_level = "intermediate" ∨
          m.requirement_level = "full")).length +
      (st.buckets.error_lines.filter (fun e => e.compound_id ∈ st.full)).length
  { company_name := dgetD metrics "company_name" "Unknown Company"
    valid_lines := st.buckets.valid_lines.length
    invalid_lines := st.buckets.error_lines.length + st.buckets.missing_metrics.length
    percent_min := tierPercentage g.MINIMUM_METRICS all_missing_ids
    percent_rec := tierPercentage g.INTERMEDIATE_METRICS all_missing_ids
    percent_full := tierPercentage g.FULL_METRICS all_missing_ids
    missing_minimum := missing_minimum
    missing_intermediate := missing_intermediate
    missing_full := missing_full
    correct_lines := st.buckets.valid_lines
    error_lines := st.buckets.error_lines
    unknown_lines := unknown_lines
    missing_metrics := st.buckets.missing_metrics
    blank_lines := st.buckets.blank_lines
    recommended_but_missing_lines := st.buckets.recommended_but_missing_lines
    warning_lines := st.buckets.warning_lines }

/-- Source `validate_metrics_by_company(company_data, schema)`: classify
every metric of `ALL_METRICS`, run the special-relation loop, aggregate. -/
def validate_metrics_by_company (g : PortcoConfig) (company_data : EntityData)
    (schema : Schema) : Except PyErr CompanySummary :=
  (classify_company g schema company_data.metrics company_data.status).map (fun b0 =>
    company_aggregate g schema company_data.metrics
      (company_relations_fold schema company_data.metrics company_data.status
        ⟨b0, g.MINIMUM_METRICS, g.INTERMEDIATE_METRICS, g.FULL_METRICS⟩
        company_special_relations))

/-- A record of fund/GP `valid_lines` (no requirement level is recorded). -/
structure FValidLine where
  compound_id : String
  raw_value : PyVal
  interpreted_value : String
deriving DecidableEq, Repr

/-- A record of fund/GP `error_lines` (no requirement level is recorded). -/
structure FErrorLine where
  compound_id : String
  raw_value : String
  error_notes : String
deriving DecidableEq, Repr

/-- The fund/GP special-relation shapes: only conditional requirements and
subset-total checks appear in those lists. -/
inductive FGRelation where
  | conditional (condition_id condition_value : String) (dependent_ids : List String)
  | subsetTotal (condition_ids : List String) (total_field : String)
deriving DecidableEq, Repr

/-- The injected configuration of the fund pipeline. -/
structure FundConfig where
  ALL_FUND_METRICS : List String
  REQUIRED_FUND_METRICS : List String
  SCHEMA_FUND : Schema
  cerberusValid : SchemaEntry → PyVal → Bool
  cerberusErrors : SchemaEntry → PyVal → String
  interpret : String → String → String

/-- The injected configuration of the GP pipeline. -/
structure GpConfig where
  ALL_GP_METRICS : List String
  REQUIRED_GP_METRICS : List String
  SCHEMA_GP : Schema
  cerberusValid : SchemaEntry → PyVal → Bool
  cerberusErrors : SchemaEntry → PyVal → String
  interpret : String → String → String

/-- The single bucket append of one fund/GP classification iteration. -/
inductive FGAdd where
  | toValid (r : FValidLine)
  | toError (r : FErrorLine)
  | toBlank (r : LevelLine)
  | toRecommended (r : LevelLine)
  | toMissing (r : LevelLine)
deriving DecidableEq, Repr

/-- Escalation reason for a strongly recommended fund/GP metric marked
not_applicable / not_available. -/
def stronglyRecReason : String :=
  "Status is 'not_applicable' or 'not_available', but this is a strongly recommended metric."

/-- One iteration of a fund/GP classification loop: both source loops have
the same shape, parameterised here by the required-metric list, the schema
used by `get_typed_value`, the cerberus schema argument and the abstract
collaborators. -/
def classify_fg_metric (required_list : List String) (typedSchema : Schema)
    (schema : Schema) (cerbValid : SchemaEntry → PyVal → Bool)
    (cerbErrors : SchemaEntry → PyVal → String) (interp : String → String → String)
    (metrics statuses : List (String × String)) (compound_id : String) : FGAdd :=
  match dget? metrics compound_id with
  | none =>
    let level :=
      if compound_id ∈ required_list then "Strongly recommended" else "Value not required"
    .toMissing ⟨compound_id, level, "Not in import file at all"⟩
  | some raw_value =>
    let status := dgetD statuses compound_id ""
    if status = "not_applicable" ∨ status = "not_available" then
      let reason := naReason status
      let level :=
        if compound_id ∈ required_list then "Strongly recommended" else "Value not required"
      if level = "Strongly recommended" then
        .toRecommended ⟨compound_id, level, stronglyRecReason⟩
      else
        .toBlank ⟨compound_id, level, reason⟩
    else if raw_value = "" ∧ status = "provided" then
      .toError ⟨compound_id, raw_value, "Value is blank but marked as 'provided'."⟩
    else if status = "provided" then
      let typed_value := get_typed_value typedSchema raw_value compound_id
      let interpreted_value := interp raw_value compound_id
      if cerbValid (dgetD schema compound_id emptyEntry) typed_value then
        .toValid ⟨compound_id, typed_value, interpreted_value⟩
      else
        .toError ⟨compound_id, raw_value,
          cerbErrors (dgetD schema compound_id emptyEntry) typed_value⟩
    else
      .toError ⟨compound_id, raw_value, "Unknown value in 'STATUS' column: " ++ status ++ "."⟩

/-- State threaded through a fund/GP relation loop: the buckets plus the
mutable `required` list. -/
structure FGRelState where
  valid_lines : List FValidLine
  error_lines : List FErrorLine
  blank_lines : List LevelLine
  recommended_but_missing_lines : List LevelLine
  missing_metrics : List LevelLine
  required : List String
deriving DecidableEq, Repr

/-- Apply one fund/GP classification append. -/
def fgApplyAdd (st : FGRelState) : FGAdd → FGRelState
  | .toValid r => { st with valid_lines := st.valid_lines ++ [r] }
  | .toError r => { st with error_lines := st.error_lines ++ [r] }
  | .toBlank r => { st with blank_lines := st.blank_lines ++ [r] }
  | .toRecommended r =>
      { st with recommended_but_missing_lines := st.recommended_but_missing_lines ++ [r] }
  | .toMissing r => { st with missing_metrics := st.missing_metrics ++ [r] }

/-- Drop every fund/GP valid-line record carrying the given compound id. -/
def dropFValid (l : List FValidLine) (compound_id : String) : List FValidLine :=
  l.filter (fun x => x.compound_id ≠ compound_id)

/-- The fund subset-total branch. Unlike the company and GP versions, the
blank-value branch (`elif fund_metrics[total_field] == ""`) does not exclude
a not_applicable / not_available status. -/
def fund_subset_total_step (metrics statuses : List (String × String))
    (condition_ids : List String) (total_field : String)
    (st : FGRelState) : FGRelState :=
  if condition_ids.any (fun condition_id => pyTruthy (dget? metrics condition_id)) then
    let total_status := dgetD statuses total_field ""
    let lvl := subsetTotalLevel condition_ids
    match dget? metrics total_field with
    | none =>
      { st with
          missing_metrics :=
            dropLevel st.missing_metrics total_field ++
              [⟨total_field, lvl, "Not in import file at all"⟩],
          blank_lines := dropLevel st.blank_lines total_field }
    | some v =>
      if v = "" then
        { st with
            missing_metrics :=
              dropLevel st.missing_metrics total_field ++
                [⟨total_field, lvl, "Value is blank"⟩],
            valid_lines := dropFValid st.valid_lines total_field,
            blank_lines := dropLevel st.blank_lines total_field }
      else if total_status = "not_applicable" ∨ total_status = "not_available" then
        { st with
            recommended_but_missing_lines :=
              dropLevel st.recommended_but_missing_lines total_field ++
                [⟨total_field, lvl, "Marked as not_applicable or not_available"⟩],
            blank_lines := dropLevel st.blank_lines total_field }
      else st
  else st

/-- The GP subset-total branch (same as the company one: the blank-value
branch excludes a not_applicable / not_available status). -/
def gp_subset_total_step (metrics statuses : List (String × String))
    (condition_ids : List String) (total_field : String)
    (st : FGRelState) : FGRelState :=
  if condition_ids.any (fun condition_id => pyTruthy (dget? metrics condition_id)) then
    let total_status := dgetD statuses total_field ""
    let lvl := subsetTotalLevel condition_ids
    match dget? metrics total_field with
    | none =>
      { st with
          missing_metrics :=
            dropLevel st.missing_metrics total_field ++
              [⟨total_field, lvl, "Not in import file at all"⟩],
          blank_lines := dropLevel st.blank_lines total_field }
    | some v =>
      if v = "" ∧ ¬(total_status = "not_applicable" ∨ total_status = "not_available") then
        { st with
            missing_metrics :=
              dropLevel st.missing_metrics total_field ++
                [⟨total_field, lvl, "Value is blank"⟩],
            valid_lines := dropFValid st.valid_lines total_field,
            blank_lines := dropLevel st.blank_lines total_field }
      else if total_status = "not_applicable" ∨ total_status = "not_available" then
        { st with
            recommended_but_missing_lines :=
              dropLevel st.recommended_but_missing_lines total_field ++
                [⟨total_field, lvl, "Marked as not_applicable or not_available"⟩],
            blank_lines := dropLevel st.blank_lines total_field }
      else st
  else st

/-- One fund/GP conditional dependent: re-file the dependent with a detailed
record (there is no valid-record annotation in these loops), then
`required.append(dependent_id)` unconditionally. -/
def fg_conditional_dep_step (metrics statuses : List (String × String))
    (condition_id condition_value : String) (st : FGRelState)
    (dependent_id : String) : FGRelState :=
  let lvl := conditionalLevel condition_id condition_value
  let st1 : FGRelState :=
    match dget? metrics dependent_id with
    | none =>
      { st with
          missing_metrics :=
            dropLevel st.missing_metrics dependent_id ++
              [⟨dependent_id, lvl, "Not in import file at all"⟩],
          blank_lines := dropLevel st.blank_lines dependent_id }
    | some v =>
      let depStatus := dgetD statuses dependent_id ""
      if v = "" ∧ ¬(depStatus = "not_applicable" ∨ depStatus = "not_available") then
        { st with
            missing_metrics :=
              dropLevel st.missing_metrics dependent_id ++
                [⟨dependent_id, lvl, "Value is blank"⟩],
            valid_lines := dropFValid st.valid_lines dependent_id,
            blank_lines := dropLevel st.blank_lines dependent_id }
      else if depStatus = "not_applicable" ∨ depStatus = "not_available" then
        { st with
            recommended_but_missing_lines :=
              dropLevel st.recommended_but_missing_lines dependent_id ++
                [⟨dependent_id, lvl, "Marked as not_applicable or not_available"⟩],
            blank_lines := dropLevel st.blank_lines dependent_id }
      else st
  { st1 with required := st1.required ++ [dependent_id] }

/-- A fund/GP conditional relation. -/
def fg_conditional_step (metrics statuses : List (String × String))
    (condition_id condition_value : String) (dependent_ids : List String)
    (st : FGRelState) : FGRelState :=
  if dget? metrics condition_id = some condition_value then
    dependent_ids.foldl
      (fg_conditional_dep_step metrics statuses condition_id condition_value) st
  else st

/-- One iteration of the fund relation loop. -/
def fund_relation_step (metrics statuses : List (String × String))
    (st : FGRelState) : FGRelation → FGRelState
  | .conditional condition_id condition_value dependent_ids =>
    fg_conditional_step metrics statuses condition_id condition_value dependent_ids st
  | .subsetTotal condition_ids total_field =>
    fund_subset_total_step metrics statuses condition_ids total_field st

/-- One iteration of the GP relation loop. -/
def gp_relation_step (metrics statuses : List (String × String))
    (st : FGRelState) : FGRelation → FGRelState
  | .conditional condition_id condition_value dependent_ids =>
    fg_conditional_step metrics statuses condition_id condition_value dependent_ids st
  | .subsetTotal condition_ids total_field =>
    gp_subset_total_step metrics statuses condition_ids total_field st

/-- The hardcoded `special_relations` of `validate_metrics_by_fund` (2025
revision), in declaration order. -/
def fund_special_relations : List FGRelation := [
  .conditional "adhere_to_ungc" "no" ["no_ungc_explanation"],
  .conditional "fund_marketing_under_sfdr" "article_8"
    ["article_8_sustainable_investment_commitment", "article_8_eu_taxonomy_alignment",
     "article_8_non_eu_taxonomy_environmental_objective",
     "article_8_social_objective_investment",
     "article_8_considers_significant_negative_impacts", "article_8_ghg_reduction_target",
     "article_8_uses_index_as_reference_benchmark"],
  .conditional "article_8_sustainable_investment_commitment" "yes"
    ["article_8_sustainable_investment_commitment_minimum_share_percentage"],
  .conditional "article_8_eu_taxonomy_alignment" "yes"
    ["article_8_eu_taxonomy_alignment_minimum_share_percentage"],
  .conditional "article_8_non_eu_taxonomy_environmental_objective" "yes"
    ["article_8_non_eu_taxonomy_environmental_objective_minimum_share_percentage"],
  .conditional "article_8_social_objective_investment" "yes"
    ["article_8_social_objective_investment_minimum_share_percentage"],
  .conditional "article_8_ghg_reduction_target" "yes"
    ["article_8_ghg_reduction_target_main_strategy", "article_8_ghg_reduction_target_ambition",
     "article_8_ghg_reduction_target_financed_emissions_baseline",
     "article_8_ghg_reduction_target_base_year", "article_8_ghg_reduction_target_target_year",
     "article_8_ghg_reduction_target_financed_emissions_reporting"],
  .conditional "fund_marketing_under_sfdr" "article_9"
    ["article_9_sustainable_investment_commitment", "article_9_eu_taxonomy_alignment",
     "article_9_non_eu_taxonomy_environmental_objective",
     "article_9_social_objective_investment",
     "article_9_considers_significant_negative_impacts", "article_9_ghg_reduction_target",
     "article_9_uses_index_as_reference_benchmark"],
  .conditional "article_9_sustainable_investment_commitment" "yes"
    ["article_9_sustainable_investment_commitment_minimum_share_percentage"],
  .conditional "article_9_eu_taxonomy_alignment" "yes"
    ["article_9_eu_taxonomy_alignment_minimum_share_percentage"],
  .conditional "article_9_non_eu_taxonomy_environmental_objective" "yes"
    ["article_9_non_eu_taxonomy_environmental_objective_minimum_share_percentage"],
  .conditional "article_9_social_objective_investment" "yes"
    ["article_9_social_objective_investment_minimum_share_percentage"],
  .conditional "article_9_ghg_reduction_target" "yes"
    ["article_9_ghg_reduction_target_main_strategy", "article_9_ghg_reduction_target_ambition",
     "article_9_ghg_reduction_target_financed_emissions_baseline",
     "article_9_ghg_reduction_target_base_year", "article_9_ghg_reduction_target_target_year",
     "article_9_ghg_reduction_target_financed_emissions_reporting",
     "article_9_ghg_reduction_target_1_5_c_aligned"],
  .subsetTotal
    ["number_of_partners_female", "number_of_partners_non_binary",
     "number_of_partners_non_disclosed", "number_of_partners_male"]
    "total_number_of_partners",
  .conditional "gender_diversity_pipeline_tracked" "yes"
    ["gender_diversity_pipeline_strategy_fit", "gender_diversity_pipeline_dd_undertaken",
     "gender_diversity_pipeline_term_sheet_issued"]]

/-- The hardcoded `special_relations` of `validate_metrics_by_gp` (2025
revision), in declaration order. -/
def gp_special_relations : List FGRelation := [
  .conditional "use_of_international_disclosing_standard" "yes"
    ["use_of_international_disclosing_standard_tcfd",
     "use_of_international_disclosing_standard_gri",
     "use_of_international_disclosing_standard_sasb",
     "use_of_international_disclosing_standard_tnfd",
     "use_of_international_disclosing_standard_sbti",
     "use_of_international_disclosing_standard_cdp",
     "use_of_international_disclosing_standard_issb",
     "use_of_international_disclosing_standard_esrs",
     "use_of_international_disclosing_standard_other"],
  .conditional "participates_in_sustainability_climate_initiatives" "yes"
    ["participates_in_sustainability_climate_initiatives_pri",
     "participates_in_sustainability_climate_initiatives_nzami",
     "participates_in_sustainability_climate_initiatives_ici",
     "participates_in_sustainability_climate_initiatives_transition_pathway_initiative",
     "participates_in_sustainability_climate_initiatives_smi",
     "participates_in_sustainability_climate_initiatives_other"],
  .conditional "number_of_esg_incidents" "yes" ["qualitative_info_esg_incidents"],
  .subsetTotal
    ["number_of_ftes_end_of_report_year_female",
     "number_of_ftes_end_of_report_year_non_binary",
     "number_of_ftes_end_of_report_year_non_disclosed",
     "number_of_ftes_end_of_report_year_male"]
    "total_ftes_end_of_report_year",
  .subsetTotal
    ["number_of_partners_female", "number_of_partners_non_binary",
     "number_of_partners_non_disclosed", "number_of_partners_male"]
    "total_number_of_partners"]

/-- The final summary of `validate_metrics_by_fund` and
`validate_metrics_by_gp` (the two source dictionaries have the same keys;
only the values differ). -/
structure FGSummary where
  company_name : String
  valid_lines : Nat
  invalid_lines : Nat
  percent_completion : Rat
  correct_lines : List FValidLine
  error_lines : List FErrorLine
  unknown_lines : List UnknownLine
  missing_metrics : List LevelLine
  blank_lines : List LevelLine
  recommended_but_missing_lines : List LevelLine
deriving DecidableEq, Repr

/-- The classification pass of the fund pipeline followed by its relation
loop: the resulting buckets and extended `required` list. -/
def fund_rel_state (g : FundConfig) (fund_data : EntityData) (schema : Schema) :
    FGRelState :=
  let st0 := g.ALL_FUND_METRICS.foldl
    (fun st compound_id =>
      fgApplyAdd st
        (classify_fg_metric g.REQUIRED_FUND_METRICS g.SCHEMA_FUND schema
          g.cerberusValid g.cerberusErrors g.interpret
          fund_data.metrics fund_data.status compound_id))
    (⟨[], [], [], [], [], g.REQUIRED_FUND_METRICS⟩ : FGRelState)
  fund_special_relations.foldl (fund_relation_step fund_data.metrics fund_data.status) st0

/-- The classification pass of the GP pipeline followed by its relation
loop. -/
def gp_rel_state (g : GpConfig) (gp_data : EntityData) (schema : Schema) :
    FGRelState :=
  let st0 := g.ALL_GP_METRICS.foldl
    (fun st compound_id =>
      fgApplyAdd st
        (classify_fg_metric g.REQUIRED_GP_METRICS g.SCHEMA_GP schema
          g.cerberusValid g.cerberusErrors g.interpret
          gp_data.metrics gp_data.status compound_id))
    (⟨[], [], [], [], [], g.REQUIRED_GP_METRICS⟩ : FGRelState)
  gp_special_relations.foldl (gp_relation_step gp_data.metrics gp_data.status) st0

/-- The dynamically extended required list of the fund pipeline (the local
`required` after the relation loop). -/
def fund_extended_required (g : FundConfig) (fund_data : EntityData)
    (schema : Schema) : List String :=
  (fund_rel_state g fund_data schema).required

/-- The dynamically extended required list of the GP pipeline. -/
def gp_extended_required (g : GpConfig) (gp_data : EntityData)
    (schema : Schema) : List String :=
  (gp_rel_state g gp_data schema).required

/-- The unknown-id scan shared by the three pipelines. -/
def unknownScan (schema : Schema) (metrics : List (String × String)) :
    List UnknownLine :=
  metrics.filterMap (fun p =>
    if (dget? schema p.1).isSome then none
    else some ⟨p.1, dgetD metrics p.1 "", "Unknown compound ID"⟩)

/-- Source `validate_metrics_by_fund(fund_data, schema)`. The completion
division raises `ZeroDivisionError` when the required list is empty. -/
def validate_metrics_by_fund (g : FundConfig) (fund_data : EntityData)
    (schema : Schema) : Except PyErr FGSummary :=
  let st := fund_rel_state g fund_data schema
  let provided_required_lines :=
    st.valid_lines.filter (fun line => line.compound_id ∈ st.required)
  if st.required.length = 0 then .error .zeroDivision
  else
    .ok
      { company_name := dgetD fund_data.metrics "fund_name" "Unknown Fund"
        valid_lines := st.valid_lines.length
        invalid_lines := st.error_lines.length + st.missing_metrics.length
        percent_completion :=
          round2 ((provided_required_lines.length : Rat) / (st.required.length : Rat) * 100)
        correct_lines := st.valid_lines
        error_lines := st.error_lines
        unknown_lines := unknownScan schema fund_data.metrics
        missing_metrics := st.missing_metrics
        blank_lines := st.blank_lines
        recommended_but_missing_lines := st.recommended_but_missing_lines }

/-- Source `validate_metrics_by_gp(gp_data, schema)`. Note `invalid_lines`
counts only the error lines (the fund and company summaries add the missing
metrics). -/
def validate_metrics_by_gp (g : GpConfig) (gp_data : EntityData)
    (schema : Schema) : Except PyErr FGSummary :=
  let st := gp_rel_state g gp_data schema
  let provided_required_lines :=
    st.valid_lines.filter (fun line => line.compound_id ∈ st.required)
  if st.required.length = 0 then .error .zeroDivision
  else
    .ok
      { company_name := dgetD gp_data.metrics "gp_name" "Unknown GP"
        valid_lines := st.valid_lines.length
        invalid_lines := st.error_lines.length
        percent_completion :=
          round2 ((provided_required_lines.length : Rat) / (st.required.length : Rat) * 100)
        correct_lines := st.valid_lines
        error_lines := st.error_lines
        unknown_lines := unknownScan schema gp_data.metrics
        missing_metrics := st.missing_metrics
        blank_lines := st.blank_lines
        recommended_but_missing_lines := st.recommended_but_missing_lines }

/-- Shorthand for a schema entry with a declared type. -/
def typedEntry (t : String) : SchemaEntry := { type := some t }

/-- The declared types of `SCHEMA_GP` (`validation_mappings/schema_gp.py`).
The `allowed`/`min`/`max` keys of the Python table are consumed only by the
external cerberus validator, which this embedding keeps abstract. -/
def SCHEMA_GP : Schema := [
  ("gp_name", typedEntry "string"),
  ("use_of_international_disclosing_standard", typedEntry "string"),
  ("use_of_international_disclosing_standard_tcfd", typedEntry "string"),
  ("use_of_international_disclosing_standard_gri", typedEntry "string"),
  ("use_of_international_disclosing_standard_sasb", typedEntry "string"),
  ("use_of_international_disclosing_standard_tnfd", typedEntry "string"),
  ("use_of_international_disclosing_standard_sbti", typedEntry "string"),
  ("use_of_international_disclosing_standard_cdp", typedEntry "string"),
  ("use_of_international_disclosing_standard_other", typedEntry "string"),
  ("use_of_international_disclosing_standard_other_specify", typedEntry "string"),
  ("use_of_international_disclosing_standard_issb", typedEntry "string"),
  ("use_of_international_disclosing_standard_esrs", typedEntry "string"),
  ("participates_in_sustainability_climate_initiatives", typedEntry "string"),
  ("participates_in_sustainability_climate_initiatives_pri", typedEntry "string"),
  ("participates_in_sustainability_climate_initiatives_nzami", typedEntry "string"),
  ("participates_in_sustainability_climate_initiatives_ici", typedEntry "string"),
  ("participates_in_sustainability_climate_initiatives_transition_pathway_initiative",
    typedEntry "string"),
  ("participates_in_sustainability_climate_initiatives_other", typedEntry "string"),
  ("participates_in_sustainability_climate_initiatives_other_specify", typedEntry "string"),
  ("participates_in_sustainability_climate_initiatives_smi", typedEntry "string"),
  ("code_of_conduct", typedEntry "string"),
  ("overall_sustainability_policy", typedEntry "string"),
  ("environmental_policy", typedEntry "string"),
  ("anti_discrimination_and_equal_opportunities_policy", typedEntry "string"),
  ("diversity_inclusion_policy", typedEntry "string"),
  ("salary_remuneration_policy", typedEntry "string"),
  ("health_and_safety_policy", typedEntry "string"),
  ("human_rights_policy", typedEntry "string"),
  ("anti_corruption_bribery_policy", typedEntry "string"),
  ("data_privacy_security_policy", typedEntry "string"),
  ("supply_chain_policy", typedEntry "string"),
  ("cybersecurity_data_management_policy", typedEntry "string"),
  ("number_of_esg_incidents", typedEntry "integer"),
  ("qualitative_info_esg_incidents", typedEntry "string"),
  ("major_open_litigations", typedEntry "string"),
  ("ems_implemented", typedEntry "string"),
  ("environmental_risk_tools", typedEntry "string"),
  ("ghg_scope_measured_calculated", typedEntry "string"),
  ("total_ghg_emissions", typedEntry "float"),
  ("total_scope_1_emissions", typedEntry "float"),
  ("total_scope_1_emissions_methodology", typedEntry "string"),
  ("total_scope_2_emissions", typedEntry "float"),
  ("total_scope_2_emissions_methodology", typedEntry "string"),
  ("total_scope_3_emissions", typedEntry "float"),
  ("total_scope_3_emissions_methodology", typedEntry "string"),
  ("total_scope_3_emissions_financed_emissions", typedEntry "float"),
  ("carbon_offset_tco2e", typedEntry "float"),
  ("emission_reduction_target", typedEntry "float"),
  ("total_ftes_end_of_report_year", typedEntry "float"),
  ("number_of_ftes_end_of_report_year_female", typedEntry "float"),
  ("number_of_ftes_end_of_report_year_non_binary", typedEntry "float"),
  ("number_of_ftes_end_of_report_year_non_disclosed", typedEntry "float"),
  ("number_of_ftes_end_of_report_year_male", typedEntry "float"),
  ("turnover_fte", typedEntry "float"),
  ("total_number_of_partners", typedEntry "integer"),
  ("number_of_partners_female", typedEntry "integer"),
  ("number_of_partners_non_binary", typedEntry "integer"),
  ("number_of_partners_non_disclosed", typedEntry "integer"),
  ("number_of_partners_male", typedEntry "integer"),
  ("implemented_whistleblower_procedure", typedEntry "string"),
  ("number_of_data_breaches", typedEntry "integer")]

/-- `ALL_GP_METRICS` (`validation_mappings/schema_gp.py`). -/
def ALL_GP_METRICS : List String := [
  "gp_name",
  "use_of_international_disclosing_standard",
  "use_of_international_disclosing_standard_tcfd",
  "use_of_international_disclosing_standard_gri",
  "use_of_international_disclosing_standard_sasb",
  "use_of_international_disclosing_standard_tnfd",
  "use_of_international_disclosing_standard_sbti",
  "use_of_international_disclosing_standard_cdp",
  "use_of_international_disclosing_standard_other",
  "use_of_international_disclosing_standard_other_specify",
  "use_of_international_disclosing_standard_issb",
  "use_of_international_disclosing_standard_esrs",
  "participates_in_sustainability_climate_initiatives",
  "participates_in_sustainability_climate_initiatives_pri",
  "participates_in_sustainability_climate_initiatives_nzami",
  "participates_in_sustainability_climate_initiatives_ici",
  "participates_in_sustainability_climate_initiatives_transition_pathway_initiative",
  "participates_in_sustainability_climate_initiatives_other",
  "participates_in_sustainability_climate_initiatives_other_specify",
  "participates_in_sustainability_climate_initiatives_smi",
  "code_of_conduct",
  "overall_sustainability_policy",
  "environmental_policy",
  "anti_discrimination_and_equal_opportunities_policy",
  "diversity_inclusion_policy",
  "salary_remuneration_policy",
  "health_and_safety_policy",
  "human_rights_policy",
  "anti_corruption_bribery_policy",
  "data_privacy_security_policy",
  "supply_chain_policy",
  "cybersecurity_data_management_policy",
  "number_of_esg_incidents",
  "qualitative_info_esg_incidents",
  "major_open_litigations",
  "ems_implemented",
  "environmental_risk_tools",
  "ghg_scope_measured_calculated",
  "total_ghg_emissions",
  "total_scope_1_emissions",
  "total_scope_1_emissions_methodology",
  "total_scope_2_emissions",
  "total_scope_2_emissions_methodology",
  "total_scope_3_emissions",
  "total_scope_3_emissions_methodology",
  "total_scope_3_emissions_financed_emissions",
  "carbon_offset_tco2e",
  "emission_reduction_target",
  "total_ftes_end_of_report_year",
  "number_of_ftes_end_of_report_year_female",
  "number_of_ftes_end_of_report_year_non_binary",
  "number_of_ftes_end_of_report_year_non_disclosed",
  "number_of_ftes_end_of_report_year_male",
  "total_number_of_partners",
  "number_of_partners_female",
  "number_of_partners_non_binary",
  "number_of_partners_non_disclosed",
  "number_of_partners_male",
  "turnover_fte",
  "implemented_whistleblower_procedure",
  "number_of_data_breaches"]

/-- `REQUIRED_GP_METRICS` (`validation_mappings/schema_gp.py`). Note it
already contains `qualitative_info_esg_incidents`, the dependent of the
`number_of_esg_incidents` conditional relation. -/
def REQUIRED_GP_METRICS : List String := [
  "gp_name",
  "use_of_international_disclosing_standard",
  "participates_in_sustainability_climate_initiatives",
  "code_of_conduct",
  "overall_sustainability_policy",
  "environmental_policy",
  "anti_discrimination_and_equal_opportunities_policy",
  "diversity_inclusion_policy",
  "salary_remuneration_policy",
  "health_and_safety_policy",
  "human_rights_policy",
  "anti_corruption_bribery_policy",
  "data_privacy_security_policy",
  "supply_chain_policy",
  "cybersecurity_data_management_policy",
  "number_of_esg_incidents",
  "qualitative_info_esg_incidents",
  "major_open_litigations",
  "ems_implemented",
  "ghg_scope_measured_calculated",
  "total_ghg_emissions",
  "total_scope_1_emissions",
  "total_scope_1_emissions_methodology",
  "total_scope_2_emissions",
  "total_scope_2_emissions_methodology",
  "total_scope_3_emissions",
  "total_scope_3_emissions_methodology",
  "carbon_offset_tco2e",
  "emission_reduction_target",
  "total_ftes_end_of_report_year",
  "number_of_ftes_end_of_report_year_female",
  "number_of_ftes_end_of_report_year_non_binary",
  "number_of_ftes_end_of_report_year_non_disclosed",
  "number_of_ftes_end_of_report_year_male",
  "total_number_of_partners",
  "number_of_partners_female",
  "number_of_partners_non_binary",
  "number_of_partners_non_disclosed",
  "number_of_partners_male",
  "turnover_fte",
  "implemented_whistleblower_procedure",
  "number_of_data_breaches",
  "total_scope_3_emissions_financed_emissions"]

/-- Instantiation of the external cerberus boundary for concrete runs: a
typed value passes when it matches the entry's declared type (an entry with
no declared type accepts anything). -/
def cerbTypeCheck (e : SchemaEntry) (v : PyVal) : Bool :=
  match e.type, v with
  | none, _ => true
  | some "integer", .int _ => true
  | some "float", .float _ => true
  | some "float", .int _ => true
  | some "string", .str _ => true
  | _, _ => false

/-- The GP configuration with the concrete `schema_gp.py` tables and the
`cerbTypeCheck` instantiation of the validator boundary. -/
def gpConfig : GpConfig :=
  { ALL_GP_METRICS := ALL_GP_METRICS
    REQUIRED_GP_METRICS := REQUIRED_GP_METRICS
    SCHEMA_GP := SCHEMA_GP
    cerberusValid := cerbTypeCheck
    cerberusErrors := fun _ _ => "validation error"
    interpret := fun value _ => value }

/-- A small portfolio-company schema used for concrete runs (the real
`SCHEMA_PORTCO` table is injected configuration outside the repository's
source files). -/
def demoSchema : Schema := [
  ("total_ftes_end_of_report_year", typedEntry "integer"),
  ("m", typedEntry "string"),
  ("a", typedEntry "string"),
  ("opt", typedEntry "string"),
  ("tobacco_activities", typedEntry "string"),
  ("percentage_turnover_tobacco_activities", typedEntry "float"),
  ("sustainability_responsibility_none", typedEntry "string"),
  ("sustainability_responsibility_cfo", typedEntry "string")]

/-- A company configuration over `demoSchema` with the given tier lists and
the `cerbTypeCheck` instantiation of the validator boundary. -/
def mkPortcoConfig (mins ints fulls opts alls : List String) : PortcoConfig :=
  { MINIMUM_METRICS := mins
    INTERMEDIATE_METRICS := ints
    FULL_METRICS := fulls
    OPTIONAL_METRICS := opts
    ALL_METRICS := alls
    SCHEMA_PORTCO := demoSchema
    cerberusValid := cerbTypeCheck
    cerberusErrors := fun _ _ => "validation error"
    interpret := fun value _ _ => value }

/-- The number of claim-level outcome buckets (valid, error, blank,
recommended_but_missing, missing) of a company summary holding a record for
the given compound id. -/
def buckets_containing (s : CompanySummary) (compound_id : String) : Nat :=
  (if s.correct_lines.any (fun r => r.compound_id = compound_id) then 1 else 0) +
  (if s.error_lines.any (fun r => r.compound_id = compound_id) then 1 else 0) +
  (if s.blank_lines.any (fun r => r.compound_id = compound_id) then 1 else 0) +
  (if s.recommended_but_missing_lines.any (fun r => r.compound_id = compound_id) then 1 else 0) +
  (if s.missing_metrics.any (fun r => r.compound_id = compound_id) then 1 else 0)

/-- C1 input (a): an optional-tier metric `opt` marked not_applicable while
the FTE value is non-empty. -/
def c1OmitConfig : PortcoConfig :=
  mkPortcoConfig [] [] [] ["opt"] ["total_ftes_end_of_report_year", "opt"]

/-- C1 dataset (a). -/
def c1OmitData : EntityData :=
  ⟨[("total_ftes_end_of_report_year", "5"), ("opt", "1"), ("currency", "EUR")],
   [("total_ftes_end_of_report_year", "provided"), ("opt", "not_applicable"),
    ("currency", "provided")]⟩

/-- C1 input (b): `tobacco_activities = "yes"` with its dependent present,
blank and marked provided. -/
def c1DupConfig : PortcoConfig :=
  mkPortcoConfig [] [] [] [] ["tobacco_activities", "percentage_turnover_tobacco_activities"]

/-- C1 dataset (b). -/
def c1DupData : EntityData :=
  ⟨[("tobacco_activities", "yes"), ("percentage_turnover_tobacco_activities", ""),
    ("currency", "EUR")],
   [("tobacco_activities", "provided"), ("percentage_turnover_tobacco_activities", "provided"),
    ("currency", "provided")]⟩

/-- C2 input (a): structural keys `total_ftes_end_of_report_year` and
`currency` both present, but the FTE value is a non-numeric string and an
intermediate-tier metric is marked not_available. -/
def c2TypeConfig : PortcoConfig := mkPortcoConfig [] ["m"] [] [] ["m"]

/-- C2 dataset (a). -/
def c2TypeData : EntityData :=
  ⟨[("m", "1"), ("total_ftes_end_of_report_year", "abc"), ("currency", "EUR")],
   [("m", "not_available")]⟩

/-- C2 input (b): both structural keys present, but the first metric of the
universe carries an unrecognised status string. -/
def c2UnboundConfig : PortcoConfig := mkPortcoConfig [] [] [] [] ["m"]

/-- C2 dataset (b). -/
def c2UnboundData : EntityData :=
  ⟨[("m", "1"), ("total_ftes_end_of_report_year", "5"), ("currency", "EUR")],
   [("m", "weird")]⟩

/-- C3 input: one minimum-tier metric, absent from the dataset, no error
lines. -/
def c3Config : PortcoConfig := mkPortcoConfig ["a"] [] [] [] ["a"]

/-- C3 dataset: empty import. -/
def c3Data : EntityData := ⟨[], []⟩

/-- C4 dataset on the real GP configuration: `number_of_esg_incidents` has
the raw value "yes", which fires the conditional relation and appends its
dependent `qualitative_info_esg_incidents` to `required` although that id is
already in `REQUIRED_GP_METRICS`. -/
def c4GpData : EntityData :=
  ⟨[("number_of_esg_incidents", "yes"), ("qualitative_info_esg_incidents", "present")],
   [("number_of_esg_incidents", "provided"), ("qualitative_info_esg_incidents", "provided")]⟩

/-- C10 witness GP dataset: one valid metric, everything else missing. -/
def c10GpData : EntityData := ⟨[("gp_name", "G")], [("gp_name", "provided")]⟩

/-- C10 witness fund configuration (the fund tables are injected
configuration outside the repository's source files). -/
def fundDemoConfig : FundConfig :=
  { ALL_FUND_METRICS := ["f1", "f2", "f3", "f4", "f5"]
    REQUIRED_FUND_METRICS := ["f1", "f2", "f3", "f4", "f5"]
    SCHEMA_FUND := [("f1", typedEntry "string"), ("f2", typedEntry "string"),
      ("f3", typedEntry "string"), ("f4", typedEntry "string"), ("f5", typedEntry "string")]
    cerberusValid := cerbTypeCheck
    cerberusErrors := fun _ _ => "validation error"
    interpret := fun value _ => value }

/-- C10 witness fund dataset: three provided metrics, two missing. -/
def c10FundData : EntityData :=
  ⟨[("f1", "x"), ("f2", "y"), ("f3", "z")],
   [("f1", "provided"), ("f2", "provided"), ("f3", "provided")]⟩

/-- C10 witness company dataset: empty import. -/
def c10CompanyData : EntityData := ⟨[], []⟩

/-- C10 witness company configuration. -/
def c10CompanyConfig : PortcoConfig := mkPortcoConfig [] [] [] [] ["m"]

/-- C8 witness configuration: one intermediate-tier metric `m`. -/
def c8Config : PortcoConfig := mkPortcoConfig [] ["m"] [] [] ["m"]

/-- C7 witness schema: a float total and two float components. -/
def c7Schema : Schema :=
  [("t", typedEntry "float"), ("c1", typedEntry "float"), ("c2", typedEntry "float")]

/-- C7 witness metrics, components summing to 105. -/
def c7Metrics105 : List (String × String) := [("t", "100"), ("c1", "50"), ("c2", "55")]

/-- C7 witness metrics, components summing to 106. -/
def c7Metrics106 : List (String × String) := [("t", "100"), ("c1", "50"), ("c2", "56")]

/-- The compound ids a relation may remove from `missing_metrics` when it
fires. -/
def missingTargets : Relation → List String
  | .conditional _ _ dependent_ids => dependent_ids
  | .subsetTotal _ total_field => [total_field]
  | .conflict _ _ _ => []
  | .sumCheck _ _ _ => []

/-- The relations before the tobacco conditional in
`company_special_relations`. -/
def c5Pre : List Relation := company_special_relations.take 6

/-- The relations after the tobacco conditional in
`company_special_relations`. -/
def c5Post : List Relation := company_special_relations.drop 7

/-- C5 witness configuration. -/
def c5Config : PortcoConfig := mkPortcoConfig [] [] [] [] ["tobacco_activities"]

/-- C5 witness dataset: tobacco activities affirmed, the dependent
percentage absent. -/
def c5Data : EntityData :=
  ⟨[("tobacco_activities", "yes"), ("currency", "EUR")],
   [("tobacco_activities", "provided"), ("currency", "provided")]⟩

/-- The relations before the sustainability-responsibility conflict in
`company_special_relations`. -/
def c6Pre : List Relation := company_special_relations.take 17

/-- The relations after the sustainability-responsibility conflict in
`company_special_relations`. -/
def c6Post : List Relation := company_special_relations.drop 18

/-- The conflicting fields of the sustainability-responsibility conflict
before `sustainability_responsibility_cfo`. -/
def c6FieldsPre : List String :=
  ["sustainability_responsibility_officer", "sustainability_responsibility_team",
   "sustainability_responsibility_referent"]

/-- The conflicting fields after `sustainability_responsibility_cfo`. -/
def c6FieldsPost : List String :=
  ["sustainability_responsibility_ceo", "sustainability_responsibility_cso",
   "sustainability_responsibility_management"]

/-- C6 witness configuration. -/
def c6Config : PortcoConfig :=
  mkPortcoConfig [] [] [] []
    ["sustainability_responsibility_none", "sustainability_responsibility_cfo"]

/-- C6 witness dataset: both responsibility answers affirmed. -/
def c6Data : EntityData :=
  ⟨[("sustainability_responsibility_none", "yes"),
    ("sustainability_responsibility_cfo", "yes"), ("currency", "EUR")],
   [("sustainability_responsibility_none", "provided"),
    ("sustainability_responsibility_cfo", "provided"), ("currency", "provided")]⟩

/-- C1: the single-bucket invariant fails in both directions. (a) An
optional-tier metric with status not_applicable and a non-empty FTE value is
appended to no bucket at all: the not_applicable branch has no case for the
"Value not required" level once the FTE walrus test succeeds. (b) A
conditional-requirement move appends the dependent to `missing_metrics`
without removing its record from `error_lines`, so the id sits in two
buckets; `invalid_lines` counts it twice. -/
theorem c1_single_bucket_invariant_violated :
    (∃ s, validate_metrics_by_company c1OmitConfig c1OmitData demoSchema = Except.ok s ∧
      buckets_containing s "opt" = 0) ∧
    (∃ s, validate_metrics_by_company c1DupConfig c1DupData demoSchema = Except.ok s ∧
      (s.error_lines.any
        (fun r => r.compound_id = "percentage_turnover_tobacco_activities")) = true ∧
      (s.missing_metrics.any
        (fun r => r.compound_id = "percentage_turnover_tobacco_activities")) = true) :=
  ⟨⟨_, rfl, by decide⟩, ⟨_, rfl, by decide, by decide⟩⟩

/-- C2: with both structurally expected keys present, malformed values still
crash `validate_metrics_by_company`. (a) A non-numeric FTE value stays a
string and `total_fte_number >= 15` raises `TypeError`. (b) An unrecognised
status string on the first metric reaches the error branch that reads the
local `level` before any branch assigned it, raising `UnboundLocalError`. -/
theorem c2_crash_on_malformed_values :
    pyTruthy (dget? c2TypeData.metrics "total_ftes_end_of_report_year") = true ∧
    pyTruthy (dget? c2TypeData.metrics "currency") = true ∧
    validate_metrics_by_company c2TypeConfig c2TypeData demoSchema =
      Except.error PyErr.typeError ∧
    pyTruthy (dget? c2UnboundData.metrics "total_ftes_end_of_report_year") = true ∧
    pyTruthy (dget? c2UnboundData.metrics "currency") = true ∧
    validate_metrics_by_company c2UnboundConfig c2UnboundData demoSchema =
      Except.error PyErr.unboundLocal :=
  ⟨by decide, by decide, rfl, by decide, by decide, rfl⟩

/-- C3: the per-tier missing counts ignore the missing metrics entirely: the
aggregation compares `requirement_level` against the lowercase labels
"minimum" / "intermediate" / "full", while every record is built with
"Minimum" / "Intermediate" / "Full" (or a "Strongly recommended…" sentence).
Here one minimum-tier metric is missing and all three counts are 0. -/
theorem c3_missing_counts_drop_missing_metrics :
    ∃ s, validate_metrics_by_company c3Config c3Data demoSchema = Except.ok s ∧
      s.missing_metrics = [⟨"a", "Minimum", "Not in import file at all"⟩] ∧
      s.error_lines = [] ∧
      s.missing_minimum = 0 ∧ s.missing_intermediate = 0 ∧ s.missing_full = 0 :=
  ⟨_, rfl, by decide, by decide, by decide, by decide, by decide⟩

/-- Away from the modelled non-decimal numerics, the per-character numeric
test is the decimal-digit test. -/
lemma all_pyNumericChar_eq (l : List Char) (h : ∀ c ∈ l, c ∉ pyNonDecimalNumericChars) :
    l.all pyNumericChar = l.all Char.isDigit := by
  induction l with
  | nil => rfl
  | cons a l ih =>
    simp only [List.all_cons]
    rw [ih (fun c hc => h c (List.mem_cons_of_mem _ hc))]
    have ha : pyNumericChar a = a.isDigit := by
      unfold pyNumericChar
      rw [decide_eq_false (h a (List.mem_cons_self _ _))]
      simp
    rw [ha]

/-- On a string without numeric-but-non-decimal characters, the extended
model of `get_typed_value` agrees with the total decimal-fragment model used
by the pipeline embedding. -/
lemma get_typed_value_unicode_agrees (schema : Schema) (value compound_id : String)
    (h : ∀ c ∈ value.toList, c ∉ pyNonDecimalNumericChars) :
    get_typed_value_unicode schema value compound_id =
      .ok (get_typed_value schema value compound_id) := by
  unfold get_typed_value_unicode get_typed_value
  have hnum : pyIsnumeric value = isNumeric value := by
    unfold pyIsnumeric isNumeric
    rw [all_pyNumericChar_eq value.toList h]
  rw [hnum]
  split_ifs with h1 h2
  · have hp : pyInt? value = some (Int.ofNat (digitsToNat value.toList)) := by
      unfold pyInt?
      rw [if_pos (show (!value.isEmpty && value.toList.all Char.isDigit) = true from h1.2)]
    rw [hp]
    rfl
  · rfl
  · rfl

attribute [local semireducible] Rat.mul Rat.inv Rat.add Rat.sub in
/-- C9: `get_typed_value` is not exception-free. Python's `str.isnumeric`
also accepts numeric-but-non-decimal characters, so under a declared integer
type the guarded `int(value)` call raises `ValueError` on "½" instead of
degrading to a string. The claim's remaining clauses hold at sample inputs:
integer parse of a decimal numeral, string passthrough for a negative
numeral under a declared integer type, float parse under a declared float
type, string passthrough for unparseable text. -/
theorem c9_get_typed_value_raises :
    pyIsnumeric "½" = true ∧
    get_typed_value_unicode c9IntSchema "½" "m" = Except.error PyErr.valueError ∧
    get_typed_value_unicode c9IntSchema "7" "m" = Except.ok (PyVal.int 7) ∧
    get_typed_value_unicode c9IntSchema "007" "m" = Except.ok (PyVal.int 7) ∧
    get_typed_value_unicode c9IntSchema "-5" "m" = Except.ok (PyVal.str "-5") ∧
    get_typed_value_unicode c9FloatSchema "2.5" "m" = Except.ok (PyVal.float (5 / 2)) ∧
    get_typed_value_unicode c9FloatSchema "abc" "m" = Except.ok (PyVal.str "abc") :=
  ⟨by decide, rfl, rfl, rfl, rfl, rfl, rfl⟩

attribute [local semireducible] Rat.mul Rat.inv Rat.add Rat.sub in
/-- C4 counterexample: the completion denominator is the length of the
extended required list (here 44, with `qualitative_info_esg_incidents`
twice), not the size of the required-id set (43): the summary reports
round(1/44·100, 2) = 2.27 while the claim's formula over the set gives
round(1/43·100, 2) = 2.33. -/
theorem c4_set_size_counterexample :
    ∃ s, validate_metrics_by_gp gpConfig c4GpData SCHEMA_GP = Except.ok s ∧
      (gp_extended_required gpConfig c4GpData SCHEMA_GP).length = 44 ∧
      ((gp_extended_required gpConfig c4GpData SCHEMA_GP).dedup).length = 43 ∧
      s.percent_completion ≠
        round2 (((s.correct_lines.filter (fun r =>
            r.compound_id ∈ (gp_extended_required gpConfig c4GpData SCHEMA_GP).dedup)).length : Rat) /
          (((gp_extended_required gpConfig c4GpData SCHEMA_GP).dedup).length : Rat) * 100) ∧
      s.percent_completion = 227 / 100 :=
  ⟨_, rfl, by decide, by decide, by decide, by decide⟩

/-- C10: `invalid_lines` is `len(error_lines)` alone for a GP summary but
`len(error_lines) + len(missing_metrics)` for company and fund summaries, so
a GP report with at least one missing metric understates the errors-plus-
missing total the other two report types would report. -/
theorem c10_invalid_lines_asymmetry
    (gg : GpConfig) (gd : EntityData) (gsch : Schema) (sg : FGSummary)
    (gf : FundConfig) (fd : EntityData) (fsch : Schema) (sf : FGSummary)
    (gc : PortcoConfig) (cd : EntityData) (csch : Schema) (sc : CompanySummary)
    (hg : validate_metrics_by_gp gg gd gsch = Except.ok sg)
    (hf : validate_metrics_by_fund gf fd fsch = Except.ok sf)
    (hc : validate_metrics_by_company gc cd csch = Except.ok sc) :
    sg.invalid_lines = sg.error_lines.length ∧
    sf.invalid_lines = sf.error_lines.length + sf.missing_metrics.length ∧
    sc.invalid_lines = sc.error_lines.length + sc.missing_metrics.length ∧
    (0 < sg.missing_metrics.length →
      sg.invalid_lines < sg.error_lines.length + sg.missing_metrics.length) := by
  simp only [validate_metrics_by_gp] at hg
  split at hg
  · exact absurd hg (by simp)
  · simp only [validate_metrics_by_fund] at hf
    split at hf
    · exact absurd hf (by simp)
    · cases hcl : classify_company gc csch cd.metrics cd.status with
      | error e => rw [validate_metrics_by_company, hcl] at hc; exact absurd hc (by simp [Except.map])
      | ok b0 =>
        rw [validate_metrics_by_company, hcl] at hc
        simp only [Except.map] at hc
        injection hg with hg'
        injection hf with hf'
        injection hc with hc'
        subst hg' hf' hc'
        refine ⟨rfl, rfl, rfl, fun h => ?_⟩
        simpa using h

/-- Witness for C10 at concrete inputs: the GP run has 59 missing metrics
and reports `invalid_lines = 0`, while the fund and company runs add the
missing counts. -/
theorem c10_invalid_lines_asymmetry_witness :
    ∃ sg sf sc,
      validate_metrics_by_gp gpConfig c10GpData SCHEMA_GP = Except.ok sg ∧
      validate_metrics_by_fund fundDemoConfig c10FundData fundDemoConfig.SCHEMA_FUND =
        Except.ok sf ∧
      validate_metrics_by_company c10CompanyConfig c10CompanyData demoSchema = Except.ok sc ∧
      sg.invalid_lines = sg.error_lines.length ∧
      sf.invalid_lines = sf.error_lines.length + sf.missing_metrics.length ∧
      sc.invalid_lines = sc.error_lines.length + sc.missing_metrics.length ∧
      (0 < sg.missing_metrics.length →
        sg.invalid_lines < sg.error_lines.length + sg.missing_metrics.length) ∧
      sg.missing_metrics.length = 60 ∧ sg.invalid_lines = 0 := by
  have h :=
    c10_invalid_lines_asymmetry gpConfig c10GpData SCHEMA_GP _ fundDemoConfig c10FundData
      fundDemoConfig.SCHEMA_FUND _ c10CompanyConfig c10CompanyData demoSchema _ rfl rfl rfl
  exact ⟨_, _, _, rfl, rfl, rfl, h.1, h.2.1, h.2.2.1, h.2.2.2, by decide, by decide⟩

/-- C4 (amended): for fund and GP reports, `percent_completion` equals
`round(n / k * 100, 2)` where `n` counts the valid records whose compound id
is in the dynamically extended required-id list and `k` is the LENGTH of
that list — the list gets one append per satisfied dependency, even for an
id already required, so `k` can exceed the size of the required-id set. -/
theorem c4_percent_completion_formula
    (gf : FundConfig) (fd : EntityData) (fsch : Schema) (sf : FGSummary)
    (gg : GpConfig) (gd : EntityData) (gsch : Schema) (sg : FGSummary)
    (hf : validate_metrics_by_fund gf fd fsch = Except.ok sf)
    (hg : validate_metrics_by_gp gg gd gsch = Except.ok sg) :
    sf.percent_completion =
      round2 (((sf.correct_lines.filter (fun r =>
          r.compound_id ∈ fund_extended_required gf fd fsch)).length : Rat) /
        ((fund_extended_required gf fd fsch).length : Rat) * 100) ∧
    sg.percent_completion =
      round2 (((sg.correct_lines.filter (fun r =>
          r.compound_id ∈ gp_extended_required gg gd gsch)).length : Rat) /
        ((gp_extended_required gg gd gsch).length : Rat) * 100) := by
  simp only [validate_metrics_by_fund] at hf
  split at hf
  · exact absurd hf (by simp)
  · simp only [validate_metrics_by_gp] at hg
    split at hg
    · exact absurd hg (by simp)
    · injection hf with hf'
      injection hg with hg'
      subst hf' hg'
      exact ⟨rfl, rfl⟩

attribute [local semireducible] Rat.mul Rat.inv Rat.add Rat.sub in
/-- Witness for C4 at concrete inputs: the fund run has a required list of
length 5 with 3 valid required metrics and reports 60.0, matching the
claim's example; the GP run is the `c4GpData` one. -/
theorem c4_percent_completion_formula_witness :
    ∃ sf sg,
      validate_metrics_by_fund fundDemoConfig c10FundData fundDemoConfig.SCHEMA_FUND =
        Except.ok sf ∧
      validate_metrics_by_gp gpConfig c4GpData SCHEMA_GP = Except.ok sg ∧
      sf.percent_completion =
        round2 (((sf.correct_lines.filter (fun r =>
            r.compound_id ∈
              fund_extended_required fundDemoConfig c10FundData
                fundDemoConfig.SCHEMA_FUND)).length : Rat) /
          ((fund_extended_required fundDemoConfig c10FundData
              fundDemoConfig.SCHEMA_FUND).length : Rat) * 100) ∧
      sg.percent_completion =
        round2 (((sg.correct_lines.filter (fun r =>
            r.compound_id ∈ gp_extended_required gpConfig c4GpData SCHEMA_GP)).length : Rat) /
          ((gp_extended_required gpConfig c4GpData SCHEMA_GP).length : Rat) * 100) ∧
      sf.percent_completion = 60 := by
  have h :=
    c4_percent_completion_formula fundDemoConfig c10FundData fundDemoConfig.SCHEMA_FUND _
      gpConfig c4GpData SCHEMA_GP _ rfl rfl
  exact ⟨_, _, rfl, rfl, h.1, h.2, by decide⟩

/-- On a numeric typed value, the Python comparison `value >= n` succeeds
and decides the rational comparison. -/
lemma pyGeNat_eq_of_pyNum (v : PyVal) (q : Rat) (n : Nat) (h : pyNum? v = some q) :
    pyGeNat v n = .ok (decide ((n : Rat) ≤ q)) := by
  cases v with
  | int m =>
    simp only [pyNum?, Option.some.injEq] at h
    subst h
    simp only [pyGeNat, Except.ok.injEq]
    rw [decide_eq_decide]
    exact ⟨fun h2 => by exact_mod_cast h2, fun h2 => by exact_mod_cast h2⟩
  | float x =>
    simp only [pyNum?, Option.some.injEq] at h
    subst h
    rfl
  | str s => simp [pyNum?] at h

/-- C8: for a metric present with status not_applicable / not_available in a
mandatory tier, with the FTE key present: a minimum-tier metric always
escalates to recommended_but_missing; with an empty FTE value any mandatory
tier escalates with the unknown-level reason; with a numeric FTE value an
intermediate-tier metric escalates exactly when the count is at least 15 and
a full-tier metric exactly when it is at least 250, staying blank (with the
not_applicable / not_available reason) otherwise; each reason names its
exact trigger. -/
theorem c8_fte_threshold_escalation (g : PortcoConfig) (schema : Schema)
    (metrics statuses : List (String × String)) (level0 : Option String)
    (compound_id raw_value fte_raw : String)
    (hraw : dget? metrics compound_id = some raw_value)
    (hst : dgetD statuses compound_id "" = "not_applicable" ∨
      dgetD statuses compound_id "" = "not_available")
    (hfte : dget? metrics "total_ftes_end_of_report_year" = some fte_raw) :
    (companyLevel g compound_id "Value not required" = "Minimum" →
      classify_company_metric g schema metrics statuses level0 compound_id =
        .ok (.toRecommended ⟨compound_id, "Minimum", minTierReason⟩, some "Minimum")) ∧
    (fte_raw = "" → companyLevel g compound_id "Value not required" ≠ "Minimum" →
      classify_company_metric g schema metrics statuses level0 compound_id =
        .ok (.toRecommended ⟨compound_id, companyLevel g compound_id "Value not required",
          unknownFteReason⟩, some (companyLevel g compound_id "Value not required"))) ∧
    (∀ q : Rat, fte_raw ≠ "" →
      pyNum? (get_typed_value g.SCHEMA_PORTCO fte_raw "total_ftes_end_of_report_year") = some q →
      companyLevel g compound_id "Value not required" = "Intermediate" →
      classify_company_metric g schema metrics statuses level0 compound_id =
        (if (15 : Rat) ≤ q then
          .ok (.toRecommended ⟨compound_id, "Intermediate", intTierReason⟩, some "Intermediate")
        else
          .ok (.toBlank ⟨compound_id, "Intermediate", naReason (dgetD statuses compound_id "")⟩,
            some "Intermediate"))) ∧
    (∀ q : Rat, fte_raw ≠ "" →
      pyNum? (get_typed_value g.SCHEMA_PORTCO fte_raw "total_ftes_end_of_report_year") = some q →
      companyLevel g compound_id "Value not required" = "Full" →
      classify_company_metric g schema metrics statuses level0 compound_id =
        (if (250 : Rat) ≤ q then
          .ok (.toRecommended ⟨compound_id, "Full", fullTierReason⟩, some "Full")
        else
          .ok (.toBlank ⟨compound_id, "Full", naReason (dgetD statuses compound_id "")⟩,
            some "Full"))) := by
  have hna : (dgetD statuses compound_id "" = "not_applicable" ∨
      dgetD statuses compound_id "" = "not_available") := hst
  refine ⟨?_, ?_, ?_, ?_⟩
  · intro hl
    unfold classify_company_metric
    rw [hraw]
    simp only [if_pos hna, hfte, hl]
    by_cases hfe : fte_raw = ""
    · simp [hfe]
    · simp [hfe]
  · intro hfe hl
    unfold classify_company_metric
    rw [hraw]
    simp only [if_pos hna, hfte, hfe]
    simp [hl]
  · intro q hfe hq hl
    unfold classify_company_metric
    rw [hraw]
    simp only [if_pos hna, hfte, hl]
    rw [if_pos hfe]
    rw [pyGeNat_eq_of_pyNum _ q 15 hq]
    rw [show ((15 : Nat) : Rat) = (15 : Rat) from by norm_num]
    rw [if_neg (show ¬("Intermediate" : String) = "Minimum" from by decide)]
    by_cases hc : (15 : Rat) ≤ q
    · rw [decide_eq_true hc, if_pos hc]; rfl
    · rw [decide_eq_false hc, if_neg hc]; rfl
  · intro q hfe hq hl
    unfold classify_company_metric
    rw [hraw]
    simp only [if_pos hna, hfte, hl]
    rw [if_pos hfe]
    rw [pyGeNat_eq_of_pyNum _ q 250 hq]
    rw [show ((250 : Nat) : Rat) = (250 : Rat) from by norm_num]
    rw [if_neg (show ¬("Full" : String) = "Minimum" from by decide),
      if_neg (show ¬("Full" : String) = "Intermediate" from by decide)]
    by_cases hc : (250 : Rat) ≤ q
    · rw [decide_eq_true hc, if_pos hc]; rfl
    · rw [decide_eq_false hc, if_neg hc]; rfl

/-- Witness for C8 at the claim's example: an intermediate-tier metric
marked not_available escalates with `total_ftes_end_of_report_year = 20` and
stays blank with `= 10`. -/
theorem c8_fte_threshold_escalation_witness :
    classify_company_metric c8Config demoSchema
        [("m", "1"), ("total_ftes_end_of_report_year", "20")] [("m", "not_available")]
        none "m" =
      .ok (.toRecommended ⟨"m", "Intermediate", intTierReason⟩, some "Intermediate") ∧
    classify_company_metric c8Config demoSchema
        [("m", "1"), ("total_ftes_end_of_report_year", "10")] [("m", "not_available")]
        none "m" =
      .ok (.toBlank ⟨"m", "Intermediate", naReason "not_available"⟩, some "Intermediate") := by
  constructor
  · rw [(c8_fte_threshold_escalation c8Config demoSchema
        [("m", "1"), ("total_ftes_end_of_report_year", "20")] [("m", "not_available")]
        none "m" "1" "20" (by decide) (Or.inr (by decide)) (by decide)).2.2.1 20
        (by decide) (by decide) (by decide)]
    rw [if_pos (by norm_num : (15 : Rat) ≤ 20)]
  · rw [(c8_fte_threshold_escalation c8Config demoSchema
        [("m", "1"), ("total_ftes_end_of_report_year", "10")] [("m", "not_available")]
        none "m" "1" "10" (by decide) (Or.inr (by decide)) (by decide)).2.2.1 10
        (by decide) (by decide) (by decide)]
    rw [if_neg (by norm_num : ¬(15 : Rat) ≤ 10)]
    rfl

/-- C7: a sum-check evaluation with a numeric total t: when no component
carries a numeric value the check is skipped; otherwise a warning record is
appended exactly when t = 0 and the component sum is non-zero, or t ≠ 0 and
the absolute difference strictly exceeds |t| · tolerance_percent / 100. -/
theorem c7_sum_check_tolerance (schema : Schema) (metrics : List (String × String))
    (total_field : String) (component_fields : List String)
    (tolerance_percent : Option Rat) (warning_lines : List WarningLine) (t : Rat)
    (hraw : dgetD metrics total_field "" ≠ "")
    (ht : pyNum? (get_typed_value schema (dgetD metrics total_field "") total_field) = some t) :
    ((componentsFoundSum schema metrics component_fields).1 = [] →
      sum_check_step schema metrics total_field component_fields tolerance_percent
        warning_lines = warning_lines) ∧
    ((componentsFoundSum schema metrics component_fields).1 ≠ [] →
      sum_check_step schema metrics total_field component_fields tolerance_percent
          warning_lines =
        (if (if t = 0 then (componentsFoundSum schema metrics component_fields).2 ≠ 0
             else |t - (componentsFoundSum schema metrics component_fields).2| >
               |t| * (tolerance_percent.getD 1 / 100)) then
          warning_lines ++
            [⟨total_field, dgetD metrics total_field "",
              sumMismatchMsg total_field t
                (componentsFoundSum schema metrics component_fields).1
                (componentsFoundSum schema metrics component_fields).2
                (tolerance_percent.getD 1)⟩]
        else warning_lines)) := by
  constructor
  · intro hempty
    unfold sum_check_step
    rw [if_pos hraw, ht]
    simp [hempty]
  · intro hne
    unfold sum_check_step
    rw [if_pos hraw, ht]
    simp only []
    rw [if_pos hne]

attribute [local semireducible] Rat.mul Rat.inv Rat.add Rat.sub in
/-- Witness for C7 at the claim's boundary: total 100, tolerance 5%, sum 105
produces no warning (exactly at the boundary), sum 106 fires one. -/
theorem c7_sum_check_tolerance_witness :
    sum_check_step c7Schema c7Metrics105 "t" ["c1", "c2"] (some 5) [] = [] ∧
    sum_check_step c7Schema c7Metrics106 "t" ["c1", "c2"] (some 5) [] =
      [⟨"t", "100", sumMismatchMsg "t" 100 ["c1", "c2"] 106 5⟩] := by
  constructor
  · rw [(c7_sum_check_tolerance c7Schema c7Metrics105 "t" ["c1", "c2"] (some 5) [] 100
      (by decide) (by decide)).2 (by decide)]
    rw [show componentsFoundSum c7Schema c7Metrics105 ["c1", "c2"] = (["c1", "c2"], (105 : Rat))
      from by decide]
    rw [if_neg (by norm_num)]
  · rw [(c7_sum_check_tolerance c7Schema c7Metrics106 "t" ["c1", "c2"] (some 5) [] 100
      (by decide) (by decide)).2 (by decide)]
    rw [show componentsFoundSum c7Schema c7Metrics106 ["c1", "c2"] = (["c1", "c2"], (106 : Rat))
      from by decide]
    rw [if_pos (by norm_num)]
    rfl

/-- A record with a different compound id survives a `dropLevel` filter. -/
lemma mem_dropLevel {r : LevelLine} {l : List LevelLine} {cid : String}
    (hr : r ∈ l) (hne : r.compound_id ≠ cid) : r ∈ dropLevel l cid := by
  simp only [dropLevel, List.mem_filter]
  exact ⟨hr, by simpa using hne⟩

/-- No record of a `dropLevel` result carries the dropped compound id. -/
lemma dropLevel_absent (l : List LevelLine) (cid : String) :
    ∀ r ∈ dropLevel l cid, r.compound_id ≠ cid := by
  intro r hr
  simpa using (List.mem_filter.mp hr).2

/-- No record of a `dropValid` result carries the dropped compound id. -/
lemma dropValid_absent (l : List ValidLine) (cid : String) :
    ∀ r ∈ dropValid l cid, r.compound_id ≠ cid := by
  intro r hr
  simpa using (List.mem_filter.mp hr).2

/-- `dropLevel` keeps a compound-id absence. -/
lemma dropLevel_keeps_absent {l : List LevelLine} {x : String}
    (h : ∀ r ∈ l, r.compound_id ≠ x) (cid : String) :
    ∀ r ∈ dropLevel l cid, r.compound_id ≠ x :=
  fun r hr => h r (List.mem_of_mem_filter hr)

/-- `dropValid` keeps a compound-id absence. -/
lemma dropValid_keeps_absent {l : List ValidLine} {x : String}
    (h : ∀ r ∈ l, r.compound_id ≠ x) (cid : String) :
    ∀ r ∈ dropValid l cid, r.compound_id ≠ x :=
  fun r hr => h r (List.mem_of_mem_filter hr)

/-- `annotateFirst` keeps a compound-id absence (it rewrites a requirement
level in place, never a compound id). -/
lemma annotateFirst_keeps_absent {l : List ValidLine} {x : String}
    (h : ∀ r ∈ l, r.compound_id ≠ x) (cid : String) (lv : ReqLevel) :
    ∀ r ∈ annotateFirst l cid lv, r.compound_id ≠ x := by
  induction l with
  | nil => intro r hr; cases hr
  | cons a l ih =>
    intro r hr
    unfold annotateFirst at hr
    split_ifs at hr with ha
    · rcases List.mem_cons.mp hr with h1 | h1
      · subst h1; exact h a (List.mem_cons_self _ _)
      · exact h r (List.mem_cons_of_mem _ h1)
    · rcases List.mem_cons.mp hr with h1 | h1
      · subst h1; exact h r (List.mem_cons_self _ _)
      · exact ih (fun r' hr' => h r' (List.mem_cons_of_mem _ hr')) r h1

/-- The tier-list extension never changes the buckets. -/
lemma tier_extend_buckets (condition_id : String) (st : CompanyRelState)
    (dependent_id : String) :
    (company_conditional_tier_extend condition_id st dependent_id).buckets = st.buckets := by
  simp only [company_conditional_tier_extend]
  split_ifs <;> rfl

/-- A conflict field step never changes `missing_metrics`. -/
lemma conflict_field_step_missing (metrics : List (String × String)) (tf tv : String)
    (b : CompanyBuckets) (cf : String) :
    (company_conflict_field_step metrics tf tv b cf).missing_metrics = b.missing_metrics := by
  unfold company_conflict_field_step
  split_ifs <;> rfl

/-- The conflict field fold never changes `missing_metrics`. -/
lemma conflict_fold_missing (metrics : List (String × String)) (tf tv : String)
    (l : List String) (b : CompanyBuckets) :
    (l.foldl (company_conflict_field_step metrics tf tv) b).missing_metrics =
      b.missing_metrics := by
  induction l generalizing b with
  | nil => rfl
  | cons a l ih => rw [List.foldl_cons, ih, conflict_field_step_missing]

/-- A missing record with a compound id other than the dependent survives
the dependent re-filing. -/
lemma dep_refile_missing_mem (metrics statuses : List (String × String))
    (condition_id condition_value : String) (st : CompanyRelState) (dep : String)
    {r : LevelLine} (hr : r ∈ st.buckets.missing_metrics) (hne : r.compound_id ≠ dep) :
    r ∈ (company_conditional_dep_refile metrics statuses condition_id condition_value st
      dep).buckets.missing_metrics := by
  unfold company_conditional_dep_refile
  cases hm : dget? metrics dep with
  | none => exact List.mem_append_left _ (mem_dropLevel hr hne)
  | some v =>
    dsimp only
    split_ifs with h1 h2
    · exact List.mem_append_left _ (mem_dropLevel hr hne)
    · exact hr
    · exact hr

/-- A missing record survives a dependent step for another compound id. -/
lemma dep_step_missing_mem (metrics statuses : List (String × String))
    (condition_id condition_value : String) (st : CompanyRelState) (dep : String)
    {r : LevelLine} (hr : r ∈ st.buckets.missing_metrics) (hne : r.compound_id ≠ dep) :
    r ∈ (company_conditional_dep_step metrics statuses condition_id condition_value st
      dep).buckets.missing_metrics := by
  unfold company_conditional_dep_step
  rw [tier_extend_buckets]
  exact dep_refile_missing_mem metrics statuses condition_id condition_value st dep hr hne

/-- A missing record survives a dependent fold over ids other than its
own. -/
lemma dep_fold_missing_mem (metrics statuses : List (String × String))
    (condition_id condition_value : String) (deps : List String) (st : CompanyRelState)
    {r : LevelLine} (hr : r ∈ st.buckets.missing_metrics)
    (hnd : ∀ d ∈ deps, r.compound_id ≠ d) :
    r ∈ (deps.foldl (company_conditional_dep_step metrics statuses condition_id
      condition_value) st).buckets.missing_metrics := by
  induction deps generalizing st with
  | nil => exact hr
  | cons d ds ih =>
    rw [List.foldl_cons]
    exact ih _
      (dep_step_missing_mem metrics statuses condition_id condition_value st d hr
        (hnd d (List.mem_cons_self _ _)))
      (fun d' hd' => hnd d' (List.mem_cons_of_mem _ hd'))

/-- A missing record with a compound id other than the subset total field
survives the subset-total step. -/
lemma subset_step_missing_mem (metrics statuses : List (String × String))
    (condition_ids : List String) (tf : String) (st : CompanyRelState)
    {r : LevelLine} (hr : r ∈ st.buckets.missing_metrics) (hne : r.compound_id ≠ tf) :
    r ∈ (company_subset_total_step metrics statuses condition_ids tf
      st).buckets.missing_metrics := by
  unfold company_subset_total_step
  split_ifs with hfire
  · cases hm : dget? metrics tf with
    | none => exact List.mem_append_left _ (mem_dropLevel hr hne)
    | some v =>
      dsimp only
      split_ifs with h1 h2
      · exact List.mem_append_left _ (mem_dropLevel hr hne)
      · exact hr
      · exact hr
  · exact hr

/-- A missing record survives any relation step whose missing targets avoid
its compound id. -/
lemma relation_step_missing_mem (schema : Schema) (metrics statuses : List (String × String))
    (st : CompanyRelState) (rel : Relation) {r : LevelLine}
    (hr : r ∈ st.buckets.missing_metrics)
    (hne : ∀ x ∈ missingTargets rel, r.compound_id ≠ x) :
    r ∈ (company_relation_step schema metrics statuses st rel).buckets.missing_metrics := by
  cases rel with
  | conditional cid cval deps =>
    unfold company_relation_step company_conditional_step
    dsimp only
    split_ifs with hf
    · exact dep_fold_missing_mem metrics statuses cid cval deps st hr
        (fun d hd => hne d (by simpa [missingTargets] using hd))
    · exact hr
  | subsetTotal cids tf =>
    exact subset_step_missing_mem metrics statuses cids tf st hr
      (hne tf (by simp [missingTargets]))
  | conflict tf tv cfs =>
    unfold company_relation_step company_conflict_step
    dsimp only
    split_ifs with hf
    · show r ∈ (cfs.foldl (company_conflict_field_step metrics tf tv)
        st.buckets).missing_metrics
      rw [conflict_fold_missing]
      exact hr
    · exact hr
  | sumCheck tf comps tol => exact hr

/-- A missing record survives a whole relation fold whose missing targets
avoid its compound id. -/
lemma relations_fold_missing_mem (schema : Schema) (metrics statuses : List (String × String))
    (rels : List Relation) (st : CompanyRelState) {r : LevelLine}
    (hr : r ∈ st.buckets.missing_metrics)
    (hne : ∀ rel ∈ rels, ∀ x ∈ missingTargets rel, r.compound_id ≠ x) :
    r ∈ (company_relations_fold schema metrics statuses st rels).buckets.missing_metrics := by
  induction rels generalizing st with
  | nil => exact hr
  | cons rel rels ih =>
    rw [company_relations_fold, List.foldl_cons]
    exact ih _
      (relation_step_missing_mem schema metrics statuses st rel hr
        (hne rel (List.mem_cons_self _ _)))
      (fun rel' hrel' => hne rel' (List.mem_cons_of_mem _ hrel'))

/-- C5: for every company dataset with `tobacco_activities = "yes"` and
`percentage_turnover_tobacco_activities` absent, the summary's missing
bucket holds the dependent with the requirement annotation citing the
triggering condition (`"Strongly recommended because 'tobacco_activities'
is 'yes'"`; the record's `reason` field itself reads "Not in import file at
all"). -/
theorem c5_conditional_missing_cites_condition (g : PortcoConfig) (schema : Schema)
    (data : EntityData) (s : CompanySummary)
    (hcond : dget? data.metrics "tobacco_activities" = some "yes")
    (hdep : dget? data.metrics "percentage_turnover_tobacco_activities" = none)
    (hok : validate_metrics_by_company g data schema = Except.ok s) :
    (⟨"percentage_turnover_tobacco_activities",
      "Strongly recommended because 'tobacco_activities' is 'yes'",
      "Not in import file at all"⟩ : LevelLine) ∈ s.missing_metrics := by
  cases hcl : classify_company g schema data.metrics data.status with
  | error e =>
    rw [validate_metrics_by_company, hcl] at hok
    simp [Except.map] at hok
  | ok b0 =>
    rw [validate_metrics_by_company, hcl] at hok
    simp only [Except.map] at hok
    injection hok with hok'
    subst hok'
    show _ ∈ (company_relations_fold schema data.metrics data.status
      ⟨b0, g.MINIMUM_METRICS, g.INTERMEDIATE_METRICS, g.FULL_METRICS⟩
      company_special_relations).buckets.missing_metrics
    rw [show company_special_relations = c5Pre ++
      Relation.conditional "tobacco_activities" "yes"
        ["percentage_turnover_tobacco_activities"] :: c5Post from rfl]
    rw [company_relations_fold, List.foldl_append, List.foldl_cons]
    apply relations_fold_missing_mem
    · unfold company_relation_step company_conditional_step
      dsimp only
      rw [if_pos hcond]
      rw [show ∀ (st : CompanyRelState) (f : CompanyRelState → String → CompanyRelState)
          (d : String), List.foldl f st [d] = f st d from fun _ _ _ => rfl]
      unfold company_conditional_dep_step
      rw [tier_extend_buckets]
      unfold company_conditional_dep_refile
      rw [hdep]
      dsimp only
      exact List.mem_append_right _ (by simp [conditionalLevel])
    · decide

/-- Witness for C5 at a concrete input. -/
theorem c5_conditional_missing_cites_condition_witness :
    ∃ s, validate_metrics_by_company c5Config c5Data demoSchema = Except.ok s ∧
      (⟨"percentage_turnover_tobacco_activities",
        "Strongly recommended because 'tobacco_activities' is 'yes'",
        "Not in import file at all"⟩ : LevelLine) ∈ s.missing_metrics := by
  have h := c5_conditional_missing_cites_condition c5Config demoSchema c5Data _
    (by decide) (by decide) rfl
  exact ⟨_, rfl, h⟩

/-- The dependent re-filing never changes `error_lines`. -/
lemma dep_refile_error (metrics statuses : List (String × String))
    (condition_id condition_value : String) (st : CompanyRelState) (dep : String) :
    (company_conditional_dep_refile metrics statuses condition_id condition_value st
      dep).buckets.error_lines = st.buckets.error_lines := by
  unfold company_conditional_dep_refile
  cases hm : dget? metrics dep with
  | none => rfl
  | some v => dsimp only; split_ifs <;> rfl

/-- The dependent step never changes `error_lines`. -/
lemma dep_step_error (metrics statuses : List (String × String))
    (condition_id condition_value : String) (st : CompanyRelState) (dep : String) :
    (company_conditional_dep_step metrics statuses condition_id condition_value st
      dep).buckets.error_lines = st.buckets.error_lines := by
  unfold company_conditional_dep_step
  rw [tier_extend_buckets, dep_refile_error]

/-- The dependent fold never changes `error_lines`. -/
lemma dep_fold_error (metrics statuses : List (String × String))
    (condition_id condition_value : String) (deps : List String) (st : CompanyRelState) :
    (deps.foldl (company_conditional_dep_step metrics statuses condition_id condition_value)
      st).buckets.error_lines = st.buckets.error_lines := by
  induction deps generalizing st with
  | nil => rfl
  | cons d ds ih => rw [List.foldl_cons, ih, dep_step_error]

/-- The subset-total step never changes `error_lines`. -/
lemma subset_step_error (metrics statuses : List (String × String))
    (condition_ids : List String) (tf : String) (st : CompanyRelState) :
    (company_subset_total_step metrics statuses condition_ids tf st).buckets.error_lines =
      st.buckets.error_lines := by
  unfold company_subset_total_step
  split_ifs with hfire
  · cases hm : dget? metrics tf with
    | none => rfl
    | some v => dsimp only; split_ifs <;> rfl
  · rfl

/-- An error record survives a conflict field step. -/
lemma conflict_field_step_error_mem (metrics : List (String × String)) (tf tv : String)
    (b : CompanyBuckets) (cf : String) {r : ErrorLine} (hr : r ∈ b.error_lines) :
    r ∈ (company_conflict_field_step metrics tf tv b cf).error_lines := by
  unfold company_conflict_field_step
  split_ifs
  · exact List.mem_append_left _ hr
  · exact hr

/-- An error record survives the conflict field fold. -/
lemma conflict_fold_error_mem (metrics : List (String × String)) (tf tv : String)
    (l : List String) (b : CompanyBuckets) {r : ErrorLine} (hr : r ∈ b.error_lines) :
    r ∈ (l.foldl (company_conflict_field_step metrics tf tv) b).error_lines := by
  induction l generalizing b with
  | nil => exact hr
  | cons a l ih =>
    rw [List.foldl_cons]
    exact ih _ (conflict_field_step_error_mem metrics tf tv b a hr)

/-- An error record survives any relation step. -/
lemma relation_step_error_mem (schema : Schema) (metrics statuses : List (String × String))
    (st : CompanyRelState) (rel : Relation) {r : ErrorLine}
    (hr : r ∈ st.buckets.error_lines) :
    r ∈ (company_relation_step schema metrics statuses st rel).buckets.error_lines := by
  cases rel with
  | conditional cid cval deps =>
    unfold company_relation_step company_conditional_step
    dsimp only
    split_ifs with hf
    · rw [dep_fold_error]; exact hr
    · exact hr
  | subsetTotal cids tf => rw [show (company_relation_step schema metrics statuses st
      (.subsetTotal cids tf)).buckets.error_lines = st.buckets.error_lines from
        subset_step_error metrics statuses cids tf st]; exact hr
  | conflict tf tv cfs =>
    unfold company_relation_step company_conflict_step
    dsimp only
    split_ifs with hf
    · exact conflict_fold_error_mem metrics tf tv cfs st.buckets hr
    · exact hr
  | sumCheck tf comps tol => exact hr

/-- An error record survives the whole relation fold. -/
lemma relations_fold_error_mem (schema : Schema) (metrics statuses : List (String × String))
    (rels : List Relation) (st : CompanyRelState) {r : ErrorLine}
    (hr : r ∈ st.buckets.error_lines) :
    r ∈ (company_relations_fold schema metrics statuses st rels).buckets.error_lines := by
  induction rels generalizing st with
  | nil => exact hr
  | cons rel rels ih =>
    rw [company_relations_fold, List.foldl_cons]
    exact ih _ (relation_step_error_mem schema metrics statuses st rel hr)

/-- The dependent re-filing keeps an absence from `valid_lines`. -/
lemma dep_refile_valid_absent (metrics statuses : List (String × String))
    (condition_id condition_value : String) (st : CompanyRelState) (dep : String)
    {x : String} (h : ∀ r ∈ st.buckets.valid_lines, r.compound_id ≠ x) :
    ∀ r ∈ (company_conditional_dep_refile metrics statuses condition_id condition_value st
      dep).buckets.valid_lines, r.compound_id ≠ x := by
  unfold company_conditional_dep_refile
  cases hm : dget? metrics dep with
  | none => exact h
  | some v =>
    dsimp only
    split_ifs
    · exact dropValid_keeps_absent h dep
    · exact h
    · exact annotateFirst_keeps_absent h dep _

/-- The dependent step keeps an absence from `valid_lines`. -/
lemma dep_step_valid_absent (metrics statuses : List (String × String))
    (condition_id condition_value : String) (st : CompanyRelState) (dep : String)
    {x : String} (h : ∀ r ∈ st.buckets.valid_lines, r.compound_id ≠ x) :
    ∀ r ∈ (company_conditional_dep_step metrics statuses condition_id condition_value st
      dep).buckets.valid_lines, r.compound_id ≠ x := by
  unfold company_conditional_dep_step
  rw [tier_extend_buckets]
  exact dep_refile_valid_absent metrics statuses condition_id condition_value st dep h

/-- The dependent fold keeps an absence from `valid_lines`. -/
lemma dep_fold_valid_absent (metrics statuses : List (String × String))
    (condition_id condition_value : String) (deps : List String) (st : CompanyRelState)
    {x : String} (h : ∀ r ∈ st.buckets.valid_lines, r.compound_id ≠ x) :
    ∀ r ∈ (deps.foldl (company_conditional_dep_step metrics statuses condition_id
      condition_value) st).buckets.valid_lines, r.compound_id ≠ x := by
  induction deps generalizing st with
  | nil => exact h
  | cons d ds ih =>
    rw [List.foldl_cons]
    exact ih _ (dep_step_valid_absent metrics statuses condition_id condition_value st d h)

/-- The subset-total step keeps an absence from `valid_lines`. -/
lemma subset_step_valid_absent (metrics statuses : List (String × String))
    (condition_ids : List String) (tf : String) (st : CompanyRelState)
    {x : String} (h : ∀ r ∈ st.buckets.valid_lines, r.compound_id ≠ x) :
    ∀ r ∈ (company_subset_total_step metrics statuses condition_ids tf
      st).buckets.valid_lines, r.compound_id ≠ x := by
  unfold company_subset_total_step
  split_ifs with hfire
  · cases hm : dget? metrics tf with
    | none => exact h
    | some v =>
      dsimp only
      split_ifs
      · exact dropValid_keeps_absent h tf
      · exact h
      · exact h
  · exact h

/-- A conflict field step keeps an absence from `valid_lines`. -/
lemma conflict_field_step_valid_absent (metrics : List (String × String)) (tf tv : String)
    (b : CompanyBuckets) (cf : String) {x : String}
    (h : ∀ r ∈ b.valid_lines, r.compound_id ≠ x) :
    ∀ r ∈ (company_conflict_field_step metrics tf tv b cf).valid_lines,
      r.compound_id ≠ x := by
  unfold company_conflict_field_step
  split_ifs
  · exact dropValid_keeps_absent h cf
  · exact h

/-- The conflict field fold keeps an absence from `valid_lines`. -/
lemma conflict_fold_valid_absent (metrics : List (String × String)) (tf tv : String)
    (l : List String) (b : CompanyBuckets) {x : String}
    (h : ∀ r ∈ b.valid_lines, r.compound_id ≠ x) :
    ∀ r ∈ (l.foldl (company_conflict_field_step metrics tf tv) b).valid_lines,
      r.compound_id ≠ x := by
  induction l generalizing b with
  | nil => exact h
  | cons a l ih =>
    rw [List.foldl_cons]
    exact ih _ (conflict_field_step_valid_absent metrics tf tv b a h)

/-- Any relation step keeps an absence from `valid_lines`: no relation ever
appends a valid record. -/
lemma relation_step_valid_absent (schema : Schema) (metrics statuses : List (String × String))
    (st : CompanyRelState) (rel : Relation) {x : String}
    (h : ∀ r ∈ st.buckets.valid_lines, r.compound_id ≠ x) :
    ∀ r ∈ (company_relation_step schema metrics statuses st rel).buckets.valid_lines,
      r.compound_id ≠ x := by
  cases rel with
  | conditional cid cval deps =>
    unfold company_relation_step company_conditional_step
    dsimp only
    split_ifs with hf
    · exact dep_fold_valid_absent metrics statuses cid cval deps st h
    · exact h
  | subsetTotal cids tf => exact subset_step_valid_absent metrics statuses cids tf st h
  | conflict tf tv cfs =>
    unfold company_relation_step company_conflict_step
    dsimp only
    split_ifs with hf
    · exact conflict_fold_valid_absent metrics tf tv cfs st.buckets h
    · exact h
  | sumCheck tf comps tol => exact h

/-- The whole relation fold keeps an absence from `valid_lines`. -/
lemma relations_fold_valid_absent (schema : Schema)
    (metrics statuses : List (String × String)) (rels : List Relation)
    (st : CompanyRelState) {x : String}
    (h : ∀ r ∈ st.buckets.valid_lines, r.compound_id ≠ x) :
    ∀ r ∈ (company_relations_fold schema metrics statuses st rels).buckets.valid_lines,
      r.compound_id ≠ x := by
  induction rels generalizing st with
  | nil => exact h
  | cons rel rels ih =>
    rw [company_relations_fold, List.foldl_cons]
    exact ih _ (relation_step_valid_absent schema metrics statuses st rel h)

/-- The dependent re-filing keeps an absence from `blank_lines`. -/
lemma dep_refile_blank_absent (metrics statuses : List (String × String))
    (condition_id condition_value : String) (st : CompanyRelState) (dep : String)
    {x : String} (h : ∀ r ∈ st.buckets.blank_lines, r.compound_id ≠ x) :
    ∀ r ∈ (company_conditional_dep_refile metrics statuses condition_id condition_value st
      dep).buckets.blank_lines, r.compound_id ≠ x := by
  unfold company_conditional_dep_refile
  cases hm : dget? metrics dep with
  | none => exact dropLevel_keeps_absent h dep
  | some v =>
    dsimp only
    split_ifs
    · exact dropLevel_keeps_absent h dep
    · exact dropLevel_keeps_absent h dep
    · exact h

/-- The dependent step keeps an absence from `blank_lines`. -/
lemma dep_step_blank_absent (metrics statuses : List (String × String))
    (condition_id condition_value : String) (st : CompanyRelState) (dep : String)
    {x : String} (h : ∀ r ∈ st.buckets.blank_lines, r.compound_id ≠ x) :
    ∀ r ∈ (company_conditional_dep_step metrics statuses condition_id condition_value st
      dep).buckets.blank_lines, r.compound_id ≠ x := by
  unfold company_conditional_dep_step
  rw [tier_extend_buckets]
  exact dep_refile_blank_absent metrics statuses condition_id condition_value st dep h

/-- The dependent fold keeps an absence from `blank_lines`. -/
lemma dep_fold_blank_absent (metrics statuses : List (String × String))
    (condition_id condition_value : String) (deps : List String) (st : CompanyRelState)
    {x : String} (h : ∀ r ∈ st.buckets.blank_lines, r.compound_id ≠ x) :
    ∀ r ∈ (deps.foldl (company_conditional_dep_step metrics statuses condition_id
      condition_value) st).buckets.blank_lines, r.compound_id ≠ x := by
  induction deps generalizing st with
  | nil => exact h
  | cons d ds ih =>
    rw [List.foldl_cons]
    exact ih _ (dep_step_blank_absent metrics statuses condition_id condition_value st d h)

/-- The subset-total step keeps an absence from `blank_lines`. -/
lemma subset_step_blank_absent (metrics statuses : List (String × String))
    (condition_ids : List String) (tf : String) (st : CompanyRelState)
    {x : String} (h : ∀ r ∈ st.buckets.blank_lines, r.compound_id ≠ x) :
    ∀ r ∈ (company_subset_total_step metrics statuses condition_ids tf
      st).buckets.blank_lines, r.compound_id ≠ x := by
  unfold company_subset_total_step
  split_ifs with hfire
  · cases hm : dget? metrics tf with
    | none => exact dropLevel_keeps_absent h tf
    | some v =>
      dsimp only
      split_ifs
      · exact dropLevel_keeps_absent h tf
      · exact dropLevel_keeps_absent h tf
      · exact h
  · exact h

/-- A conflict field step keeps an absence from `blank_lines`. -/
lemma conflict_field_step_blank_absent (metrics : List (String × String)) (tf tv : String)
    (b : CompanyBuckets) (cf : String) {x : String}
    (h : ∀ r ∈ b.blank_lines, r.compound_id ≠ x) :
    ∀ r ∈ (company_conflict_field_step metrics tf tv b cf).blank_lines,
      r.compound_id ≠ x := by
  unfold company_conflict_field_step
  split_ifs
  · exact dropLevel_keeps_absent h cf
  · exact h

/-- The conflict field fold keeps an absence from `blank_lines`. -/
lemma conflict_fold_blank_absent (metrics : List (String × String)) (tf tv : String)
    (l : List String) (b : CompanyBuckets) {x : String}
    (h : ∀ r ∈ b.blank_lines, r.compound_id ≠ x) :
    ∀ r ∈ (l.foldl (company_conflict_field_step metrics tf tv) b).blank_lines,
      r.compound_id ≠ x := by
  induction l generalizing b with
  | nil => exact h
  | cons a l ih =>
    rw [List.foldl_cons]
    exact ih _ (conflict_field_step_blank_absent metrics tf tv b a h)

/-- Any relation step keeps an absence from `blank_lines`: no relation ever
appends a blank record. -/
lemma relation_step_blank_absent (schema : Schema) (metrics statuses : List (String × String))
    (st : CompanyRelState) (rel : Relation) {x : String}
    (h : ∀ r ∈ st.buckets.blank_lines, r.compound_id ≠ x) :
    ∀ r ∈ (company_relation_step schema metrics statuses st rel).buckets.blank_lines,
      r.compound_id ≠ x := by
  cases rel with
  | conditional cid cval deps =>
    unfold company_relation_step company_conditional_step
    dsimp only
    split_ifs with hf
    · exact dep_fold_blank_absent metrics statuses cid cval deps st h
    · exact h
  | subsetTotal cids tf => exact subset_step_blank_absent metrics statuses cids tf st h
  | conflict tf tv cfs =>
    unfold company_relation_step company_conflict_step
    dsimp only
    split_ifs with hf
    · exact conflict_fold_blank_absent metrics tf tv cfs st.buckets h
    · exact h
  | sumCheck tf comps tol => exact h

/-- The whole relation fold keeps an absence from `blank_lines`. -/
lemma relations_fold_blank_absent (schema : Schema)
    (metrics statuses : List (String × String)) (rels : List Relation)
    (st : CompanyRelState) {x : String}
    (h : ∀ r ∈ st.buckets.blank_lines, r.compound_id ≠ x) :
    ∀ r ∈ (company_relations_fold schema metrics statuses st rels).buckets.blank_lines,
      r.compound_id ≠ x := by
  induction rels generalizing st with
  | nil => exact h
  | cons rel rels ih =>
    rw [company_relations_fold, List.foldl_cons]
    exact ih _ (relation_step_blank_absent schema metrics statuses st rel h)

/-- C6: with `sustainability_responsibility_none = "yes"` and
`sustainability_responsibility_cfo = "yes"`, the final summary holds the CFO
field in the error bucket with the note naming both fields and the required
resolution, and no record for it remains in the valid or blank buckets. -/
theorem c6_conflict_forces_error (g : PortcoConfig) (schema : Schema)
    (data : EntityData) (s : CompanySummary)
    (htrig : dget? data.metrics "sustainability_responsibility_none" = some "yes")
    (hcf : dget? data.metrics "sustainability_responsibility_cfo" = some "yes")
    (hok : validate_metrics_by_company g data schema = Except.ok s) :
    (⟨"sustainability_responsibility_cfo", "yes",
      conflictMsg "sustainability_responsibility_cfo" "sustainability_responsibility_none"
        "yes", none⟩ : ErrorLine) ∈ s.error_lines ∧
    (∀ r ∈ s.correct_lines, r.compound_id ≠ "sustainability_responsibility_cfo") ∧
    (∀ r ∈ s.blank_lines, r.compound_id ≠ "sustainability_responsibility_cfo") := by
  cases hcl : classify_company g schema data.metrics data.status with
  | error e =>
    rw [validate_metrics_by_company, hcl] at hok
    simp [Except.map] at hok
  | ok b0 =>
    rw [validate_metrics_by_company, hcl] at hok
    simp only [Except.map] at hok
    injection hok with hok'
    subst hok'
    refine ⟨?_, ?_, ?_⟩
    · show _ ∈ (company_relations_fold schema data.metrics data.status
        ⟨b0, g.MINIMUM_METRICS, g.INTERMEDIATE_METRICS, g.FULL_METRICS⟩
        company_special_relations).buckets.error_lines
      rw [show company_special_relations = c6Pre ++
        Relation.conflict "sustainability_responsibility_none" "yes"
          ["sustainability_responsibility_officer", "sustainability_responsibility_team",
           "sustainability_responsibility_referent", "sustainability_responsibility_cfo",
           "sustainability_responsibility_ceo", "sustainability_responsibility_cso",
           "sustainability_responsibility_management"] :: c6Post from rfl]
      rw [company_relations_fold, List.foldl_append, List.foldl_cons]
      apply relations_fold_error_mem
      unfold company_relation_step company_conflict_step
      dsimp only
      rw [if_pos htrig]
      rw [show ["sustainability_responsibility_officer", "sustainability_responsibility_team",
           "sustainability_responsibility_referent", "sustainability_responsibility_cfo",
           "sustainability_responsibility_ceo", "sustainability_responsibility_cso",
           "sustainability_responsibility_management"] =
        c6FieldsPre ++ "sustainability_responsibility_cfo" :: c6FieldsPost from rfl]
      rw [List.foldl_append, List.foldl_cons]
      apply conflict_fold_error_mem
      unfold company_conflict_field_step
      rw [if_pos hcf]
      exact List.mem_append_right _ (by simp)
    · show ∀ r ∈ (company_relations_fold schema data.metrics data.status
        ⟨b0, g.MINIMUM_METRICS, g.INTERMEDIATE_METRICS, g.FULL_METRICS⟩
        company_special_relations).buckets.valid_lines,
          r.compound_id ≠ "sustainability_responsibility_cfo"
      rw [show company_special_relations = c6Pre ++
        Relation.conflict "sustainability_responsibility_none" "yes"
          ["sustainability_responsibility_officer", "sustainability_responsibility_team",
           "sustainability_responsibility_referent", "sustainability_responsibility_cfo",
           "sustainability_responsibility_ceo", "sustainability_responsibility_cso",
           "sustainability_responsibility_management"] :: c6Post from rfl]
      rw [company_relations_fold, List.foldl_append, List.foldl_cons]
      apply relations_fold_valid_absent
      unfold company_relation_step company_conflict_step
      dsimp only
      rw [if_pos htrig]
      rw [show ["sustainability_responsibility_officer", "sustainability_responsibility_team",
           "sustainability_responsibility_referent", "sustainability_responsibility_cfo",
           "sustainability_responsibility_ceo", "sustainability_responsibility_cso",
           "sustainability_responsibility_management"] =
        c6FieldsPre ++ "sustainability_responsibility_cfo" :: c6FieldsPost from rfl]
      rw [List.foldl_append, List.foldl_cons]
      apply conflict_fold_valid_absent
      unfold company_conflict_field_step
      rw [if_pos hcf]
      exact dropValid_absent _ _
    · show ∀ r ∈ (company_relations_fold schema data.metrics data.status
        ⟨b0, g.MINIMUM_METRICS, g.INTERMEDIATE_METRICS, g.FULL_METRICS⟩
        company_special_relations).buckets.blank_lines,
          r.compound_id ≠ "sustainability_responsibility_cfo"
      rw [show company_special_relations = c6Pre ++
        Relation.conflict "sustainability_responsibility_none" "yes"
          ["sustainability_responsibility_officer", "sustainability_responsibility_team",
           "sustainability_responsibility_referent", "sustainability_responsibility_cfo",
           "sustainability_responsibility_ceo", "sustainability_responsibility_cso",
           "sustainability_responsibility_management"] :: c6Post from rfl]
      rw [company_relations_fold, List.foldl_append, List.foldl_cons]
      apply relations_fold_blank_absent
      unfold company_relation_step company_conflict_step
      dsimp only
      rw [if_pos htrig]
      rw [show ["sustainability_responsibility_officer", "sustainability_responsibility_team",
           "sustainability_responsibility_referent", "sustainability_responsibility_cfo",
           "sustainability_responsibility_ceo", "sustainability_responsibility_cso",
           "sustainability_responsibility_management"] =
        c6FieldsPre ++ "sustainability_responsibility_cfo" :: c6FieldsPost from rfl]
      rw [List.foldl_append, List.foldl_cons]
      apply conflict_fold_blank_absent
      unfold company_conflict_field_step
      rw [if_pos hcf]
      exact dropLevel_absent _ _

/-- Witness for C6 at a concrete input. -/
theorem c6_conflict_forces_error_witness :
    ∃ s, validate_metrics_by_company c6Config c6Data demoSchema = Except.ok s ∧
      ((⟨"sustainability_responsibility_cfo", "yes",
        conflictMsg "sustainability_responsibility_cfo" "sustainability_responsibility_none"
          "yes", none⟩ : ErrorLine) ∈ s.error_lines ∧
      (∀ r ∈ s.correct_lines, r.compound_id ≠ "sustainability_responsibility_cfo") ∧
      (∀ r ∈ s.blank_lines, r.compound_id ≠ "sustainability_responsibility_cfo")) := by
  have h := c6_conflict_forces_error c6Config demoSchema c6Data _
    (by decide) (by decide) rfl
  exact ⟨_, rfl, h⟩

end ReframeVenture

